import Mathlib

/-!
Shallow embedding of the thread-overflow backend (an Express/Prisma/Mongoose
ideation platform) and verification of its specification claims.

The database is modelled as lists of rows; every route handler and service
method relevant to the claims is translated into a pure Lean function from a
`DB` (plus the request parameters) to a result record carrying the HTTP status
(or the thrown service-error message) together with the successor database
state.  Identifiers are natural numbers (Prisma uses SERIAL integers; the
Mongoose ObjectId validation always succeeds on well-formed ids and is not
modelled).  JavaScript falsiness of a missing/empty string is modelled as the
empty string, and `null`-able columns as `Option`.
-/

set_option linter.unusedVariables false

/-- User roles (Prisma enum `UserRole`). -/
inductive Role where
  | USER
  | ADMIN
  deriving DecidableEq

/-- Idea lifecycle status (Prisma enum `IdeaStatus`). -/
inductive IdeaStatus where
  | OPEN
  | CLOSED
  deriving DecidableEq

/-- Idea kind (Prisma enum `IdeaType`). -/
inductive IdeaType where
  | IDEATION
  | SOLUTION_REQUEST
  deriving DecidableEq

/-- SubIdea status (Prisma enum `SubIdeaStatus`). -/
inductive SubIdeaStatus where
  | OPEN_FOR_PROTOTYPING
  | SELF_PROTOTYPING
  deriving DecidableEq

/-- Proposal status (Prisma enum `ProposalStatus`). -/
inductive ProposalStatus where
  | PENDING
  | ACCEPTED
  | REJECTED
  deriving DecidableEq

/-- A row of the `User` table.  `stars` is the reward balance. -/
structure User where
  id : Nat
  role : Role
  stars : Int
  deriving DecidableEq

/-- A row of the `Idea` table, including the denormalized counters. -/
structure Idea where
  id : Nat
  authorId : Nat
  type : IdeaType
  status : IdeaStatus
  totalProposals : Int
  totalPrototypes : Int
  deriving DecidableEq

/-- A row of the `SubIdea` table. -/
structure SubIdea where
  id : Nat
  authorId : Nat
  ideaId : Nat
  status : SubIdeaStatus
  title : String
  deriving DecidableEq

/-- A row of the `Proposal` table. -/
structure Proposal where
  id : Nat
  authorId : Nat
  subIdeaId : Nat
  status : ProposalStatus
  title : String
  description : String
  presentationUrl : Option String
  rejectionReason : Option String
  deriving DecidableEq

/-- A row of the `Prototype` table. -/
structure Prototype where
  id : Nat
  authorId : Nat
  proposalId : Nat
  title : String
  description : String
  imageUrl : String
  liveUrl : Option String
  deriving DecidableEq

/-- A row of the `PrototypeTeamMember` join table. -/
structure TeamMember where
  prototypeId : Nat
  userId : Nat
  deriving DecidableEq

/-- A row of the `Vote` table: a polymorphic target held in three nullable
foreign keys, exactly one of which is set by the voting routes. -/
structure VoteRow where
  userId : Nat
  subIdeaId : Option Nat
  proposalId : Option Nat
  prototypeId : Option Nat
  value : Int
  deriving DecidableEq

/-- A row of the `Comment` table (polymorphic target, threaded replies). -/
structure CommentRow where
  id : Nat
  authorId : Nat
  subIdeaId : Option Nat
  prototypeId : Option Nat
  parentCommentId : Option Nat
  content : String
  deriving DecidableEq

/-- The whole database.  The `next*Id` fields model the SERIAL sequences
Prisma uses to assign fresh primary keys. -/
structure DB where
  users : List User
  ideas : List Idea
  subIdeas : List SubIdea
  proposals : List Proposal
  prototypes : List Prototype
  teamMembers : List TeamMember
  votes : List VoteRow
  comments : List CommentRow
  nextIdeaId : Nat
  nextSubIdeaId : Nat
  nextProposalId : Nat
  nextPrototypeId : Nat
  nextCommentId : Nat
  deriving DecidableEq

/-- Model of `prisma.user.findUnique` / `User.findById`. -/
def findUser (users : List User) (i : Nat) : Option User :=
  users.find? (fun x => x.id == i)

/-- Model of `prisma.idea.findUnique` / `Idea.findById`. -/
def findIdea (ideas : List Idea) (i : Nat) : Option Idea :=
  ideas.find? (fun x => x.id == i)

/-- Model of `prisma.subIdea.findUnique` / `SubIdea.findById`. -/
def findSubIdea (subIdeas : List SubIdea) (i : Nat) : Option SubIdea :=
  subIdeas.find? (fun x => x.id == i)

/-- Model of `prisma.proposal.findUnique` / `Proposal.findById`. -/
def findProposal (proposals : List Proposal) (i : Nat) : Option Proposal :=
  proposals.find? (fun x => x.id == i)

/-- Model of `prisma.prototype.findUnique` / `Prototype.findById`. -/
def findPrototype (prototypes : List Prototype) (i : Nat) : Option Prototype :=
  prototypes.find? (fun x => x.id == i)

/-- The Idea a Proposal belongs to, through its parent SubIdea (the relation
filter `subIdea: { ideaId }` and the populate chain `proposal.subIdea.ideaId`). -/
def ideaIdOfProposal (subIdeas : List SubIdea) (p : Proposal) : Option Nat :=
  (findSubIdea subIdeas p.subIdeaId).map (fun s => s.ideaId)

/-- The Idea a Prototype belongs to, through Proposal and SubIdea (the relation
filter `proposal: { subIdea: { ideaId } }`). -/
def ideaIdOfPrototype (proposals : List Proposal) (subIdeas : List SubIdea)
    (pr : Prototype) : Option Nat :=
  (findProposal proposals pr.proposalId).bind (fun p => ideaIdOfProposal subIdeas p)

/-- Number of existing Proposals whose parent SubIdea belongs to idea `i`. -/
def proposalCountFor (db : DB) (i : Nat) : Nat :=
  db.proposals.countP (fun p => ideaIdOfProposal db.subIdeas p == some i)

/-- Number of existing Prototypes whose Proposal's SubIdea belongs to idea `i`. -/
def prototypeCountFor (db : DB) (i : Nat) : Nat :=
  db.prototypes.countP (fun pr => ideaIdOfPrototype db.proposals db.subIdeas pr == some i)

/-- The counter invariant of the spec: every Idea's denormalized counters match
the live counts of its descendants. -/
def countersConsistent (db : DB) : Prop :=
  ∀ x ∈ db.ideas,
    x.totalProposals = (proposalCountFor db x.id : Int) ∧
    x.totalPrototypes = (prototypeCountFor db x.id : Int)

/-- Primary keys are unique in every entity table (Prisma PRIMARY KEY columns). -/
def uniqueIds (db : DB) : Prop :=
  (db.ideas.map Idea.id).Nodup ∧ (db.subIdeas.map SubIdea.id).Nodup ∧
    (db.proposals.map Proposal.id).Nodup ∧ (db.prototypes.map Prototype.id).Nodup

/-- Every Prototype's foreign key resolves to an existing Proposal (the
`Prototype_proposalId_fkey ... ON DELETE RESTRICT` constraint). -/
def prototypeFKsValid (db : DB) : Prop :=
  ∀ pr ∈ db.prototypes, (findProposal db.proposals pr.proposalId).isSome

instance : DecidablePred countersConsistent := by
  unfold countersConsistent; infer_instance

instance : DecidablePred uniqueIds := by
  unfold uniqueIds; infer_instance

instance : DecidablePred prototypeFKsValid := by
  unfold prototypeFKsValid; infer_instance

/-- Result of a route handler: the HTTP status sent and the database after the
request. -/
structure RouteResult where
  status : Nat
  db : DB
  deriving DecidableEq

/-- Result of a Mongoose service method: the thrown error message (`none` on
success) and the database after the call. -/
structure SvcOutcome where
  error : Option String
  db : DB
  deriving DecidableEq

/-- Model of JavaScript `String.prototype.includes`: `sub` occurs somewhere in
`s`. -/
def strIncludes (s sub : String) : Bool :=
  (List.range (s.length + 1)).any (fun i => List.isPrefixOf sub.data (s.data.drop i))

/-- Model of `prisma.user.update` with `stars: { increment: d }` (a relative,
atomic update on the row with the given id). -/
def bumpUserStars (users : List User) (uid : Nat) (d : Int) : List User :=
  users.map (fun u => if u.id == uid then { u with stars := u.stars + d } else u)

/-- Relative update of `totalProposals` on the Idea with id `i` (Prisma
`increment`, Mongoose `$inc`; the Mongoose `findByIdAndUpdate` is a no-op on a
missing id, matching the map). -/
def bumpTotalProposals (ideas : List Idea) (i : Nat) (d : Int) : List Idea :=
  ideas.map (fun x => if x.id == i then { x with totalProposals := x.totalProposals + d } else x)

/-- Relative update of `totalPrototypes` on the Idea with id `i`. -/
def bumpTotalPrototypes (ideas : List Idea) (i : Nat) (d : Int) : List Idea :=
  ideas.map (fun x => if x.id == i then { x with totalPrototypes := x.totalPrototypes + d } else x)

/-- Model of `POST /api/proposals/submit/:subIdeaId` (current revision of
`src/routes/proposals.js`): find the parent SubIdea (404 if absent), then in one
`$transaction` create the Proposal (status defaults to PENDING) and increment
the ancestor Idea's `totalProposals`, then award the author 2 stars.  Prisma
throws P2025 (mapped to 404 by the catch block) when `connect` misses the
author or the counter update misses the Idea row, rolling the transaction
back. -/
def submitProposal (db : DB) (authorId subIdeaId : Nat)
    (title description : String) (presentationUrl : Option String) : RouteResult :=
  if title = "" ∨ description = "" then ⟨400, db⟩
  else
    match findSubIdea db.subIdeas subIdeaId with
    | none => ⟨404, db⟩
    | some s =>
      if (findUser db.users authorId).isNone then ⟨404, db⟩
      else if (findIdea db.ideas s.ideaId).isNone then ⟨404, db⟩
      else
        let newP : Proposal :=
          { id := db.nextProposalId, authorId := authorId, subIdeaId := subIdeaId,
            status := ProposalStatus.PENDING, title := title, description := description,
            presentationUrl := presentationUrl, rejectionReason := none }
        ⟨201, { db with
          proposals := db.proposals ++ [newP],
          ideas := bumpTotalProposals db.ideas s.ideaId 1,
          users := bumpUserStars db.users authorId 2,
          nextProposalId := db.nextProposalId + 1 }⟩

/-- Model of the earlier revision of `POST /api/proposals/submit/:subIdeaId`
(second document of `src/routes/proposals.js`): a plain
`prisma.proposal.create` with no counter update and no star award; a missing
SubIdea or author surfaces as P2025, mapped to 404. -/
def submitProposalPlain (db : DB) (authorId subIdeaId : Nat)
    (title description : String) (presentationUrl : Option String) : RouteResult :=
  if title = "" ∨ description = "" then ⟨400, db⟩
  else if (findSubIdea db.subIdeas subIdeaId).isNone then ⟨404, db⟩
  else if (findUser db.users authorId).isNone then ⟨404, db⟩
  else
    ⟨201, { db with
      proposals := db.proposals ++
        [{ id := db.nextProposalId, authorId := authorId, subIdeaId := subIdeaId,
           status := ProposalStatus.PENDING, title := title, description := description,
           presentationUrl := presentationUrl, rejectionReason := none }],
      nextProposalId := db.nextProposalId + 1 }⟩

/-- Model of `POST /api/prototypes/submit/:proposalId`
(`src/routes/prototypes.js`): the handler reads `proposal.status` BEFORE its
null check, so a missing Proposal raises a TypeError that the catch block turns
into 500 (the 404 branch below the dereference is unreachable); likewise
`proposal.subIdea.ideaId` on a missing SubIdea relation is a TypeError -> 500.
For an existing non-ACCEPTED Proposal the handler returns 403 before the
transaction.  Otherwise one `$transaction` creates the Prototype and increments
the ancestor Idea's `totalPrototypes`; P2025 from `connect`/`update` rolls it
back and maps to 404. -/
def submitPrototype (db : DB) (authorId proposalId : Nat)
    (title description imageUrl : String) (liveUrl : Option String) : RouteResult :=
  if title = "" ∨ description = "" ∨ imageUrl = "" then ⟨400, db⟩
  else
    match findProposal db.proposals proposalId with
    | none => ⟨500, db⟩
    | some p =>
      if p.status ≠ ProposalStatus.ACCEPTED then ⟨403, db⟩
      else
        match findSubIdea db.subIdeas p.subIdeaId with
        | none => ⟨500, db⟩
        | some s =>
          if (findUser db.users authorId).isNone then ⟨404, db⟩
          else if (findIdea db.ideas s.ideaId).isNone then ⟨404, db⟩
          else
            ⟨201, { db with
              prototypes := db.prototypes ++
                [{ id := db.nextPrototypeId, authorId := authorId, proposalId := proposalId,
                   title := title, description := description, imageUrl := imageUrl,
                   liveUrl := liveUrl }],
              ideas := bumpTotalPrototypes db.ideas s.ideaId 1,
              nextPrototypeId := db.nextPrototypeId + 1 }⟩

/-- Model of `POST /api/ideas` (Prisma revision, `src/unnamed/part_008`):
create the Idea with status OPEN and award the author 2 stars.  The counters
start at their schema default 0.  A missing author violates the
`Idea_authorId_fkey` constraint and surfaces as 500. -/
def createIdea (db : DB) (authorId : Nat) (title description : String)
    (ty : IdeaType) : RouteResult :=
  if title = "" ∨ description = "" then ⟨400, db⟩
  else if (findUser db.users authorId).isNone then ⟨500, db⟩
  else
    ⟨201, { db with
      ideas := db.ideas ++
        [{ id := db.nextIdeaId, authorId := authorId, type := ty,
           status := IdeaStatus.OPEN, totalProposals := 0, totalPrototypes := 0 }],
      users := bumpUserStars db.users authorId 2,
      nextIdeaId := db.nextIdeaId + 1 }⟩

/-- Stars deducted from user `u` by the cascade delete of an Idea: the handler
accumulates a `starsToDeduct` object (1 for the Idea, 1 per fetched SubIdea, 2
per fetched Proposal, 3 per fetched Prototype, keyed by the author) and then
issues one `stars: { decrement }` per distinct author.  Because the author
foreign keys are `ON DELETE RESTRICT`, every accumulated key resolves to an
existing user, so the per-user effect is the closed sum below. -/
def cascadeDeduction (idea : Idea) (subs : List SubIdea) (ps : List Proposal)
    (prs : List Prototype) (u : Nat) : Int :=
  (if idea.authorId == u then 1 else 0)
    + (subs.countP (fun s => s.authorId == u) : Int)
    + 2 * (ps.countP (fun p => p.authorId == u) : Int)
    + 3 * (prs.countP (fun pr => pr.authorId == u) : Int)

/-- The OR relation filter of cascade step 4: does vote `v` target a SubIdea,
Proposal or Prototype descending from idea `i`? -/
def voteTargetsIdea (db : DB) (i : Nat) (v : VoteRow) : Bool :=
  (v.subIdeaId.bind (fun sid => (findSubIdea db.subIdeas sid).map SubIdea.ideaId) == some i) ||
    (v.proposalId.bind (fun pid =>
      (findProposal db.proposals pid).bind (ideaIdOfProposal db.subIdeas)) == some i) ||
    (v.prototypeId.bind (fun prid =>
      (findPrototype db.prototypes prid).bind
        (ideaIdOfPrototype db.proposals db.subIdeas)) == some i)

/-- The OR relation filter of cascade step 5 for comments. -/
def commentTargetsIdea (db : DB) (i : Nat) (c : CommentRow) : Bool :=
  (c.subIdeaId.bind (fun sid => (findSubIdea db.subIdeas sid).map SubIdea.ideaId) == some i) ||
    (c.prototypeId.bind (fun prid =>
      (findPrototype db.prototypes prid).bind
        (ideaIdOfPrototype db.proposals db.subIdeas)) == some i)

/-- The relation filter of cascade step 6 for prototype team members. -/
def teamMemberTargetsIdea (db : DB) (i : Nat) (t : TeamMember) : Bool :=
  (findPrototype db.prototypes t.prototypeId).bind
    (ideaIdOfPrototype db.proposals db.subIdeas) == some i

/-- Model of `DELETE /api/ideas/:id` (Prisma revision, `src/unnamed/part_008`):
after a 404 check the handler runs one transaction that fetches the descendant
SubIdeas, Proposals and Prototypes, deducts stars on the 1/1/2/3 schedule,
deletes the votes, comments and team-member rows targeting any descendant, and
finally deletes Prototypes, Proposals, SubIdeas and the Idea in dependency
order.  The handler receives the authenticated actor in `req.user` but never
compares it with the Idea's author: there is no authorization check. -/
def deleteIdea (db : DB) (actorId : Nat) (actorRole : Role) (ideaId : Nat) : RouteResult :=
  match findIdea db.ideas ideaId with
  | none => ⟨404, db⟩
  | some idea =>
    let subs := db.subIdeas.filter (fun s => s.ideaId == ideaId)
    let ps := db.proposals.filter (fun p => ideaIdOfProposal db.subIdeas p == some ideaId)
    let prs := db.prototypes.filter
      (fun pr => ideaIdOfPrototype db.proposals db.subIdeas pr == some ideaId)
    ⟨200, { db with
      users := db.users.map (fun u => { u with stars := u.stars - cascadeDeduction idea subs ps prs u.id }),
      votes := db.votes.filter (fun v => !(voteTargetsIdea db ideaId v)),
      comments := db.comments.filter (fun c => !(commentTargetsIdea db ideaId c)),
      teamMembers := db.teamMembers.filter (fun t => !(teamMemberTargetsIdea db ideaId t)),
      prototypes := db.prototypes.filter
        (fun pr => !(ideaIdOfPrototype db.proposals db.subIdeas pr == some ideaId)),
      proposals := db.proposals.filter (fun p => !(ideaIdOfProposal db.subIdeas p == some ideaId)),
      subIdeas := db.subIdeas.filter (fun s => !(s.ideaId == ideaId)),
      ideas := db.ideas.filter (fun x => !(x.id == ideaId)) }⟩

/-- Model of `IdeaService.deleteIdea` (Mongoose revision,
`src/unnamed/part_002`): 404 on a missing Idea, `Unauthorized` unless the actor
is the author or an ADMIN, then a plain `findByIdAndDelete` (no cascade in this
revision). -/
def ideaServiceDeleteIdea (db : DB) (ideaId userId : Nat) (userRole : Role) : SvcOutcome :=
  match findIdea db.ideas ideaId with
  | none => ⟨some "Idea not found", db⟩
  | some idea =>
    if idea.authorId ≠ userId ∧ userRole ≠ Role.ADMIN then
      ⟨some "Unauthorized to delete this idea", db⟩
    else
      ⟨none, { db with ideas := db.ideas.filter (fun x => !(x.id == ideaId)) }⟩

/-- HTTP status that `DELETE /api/ideas/:id` (service revision,
`src/routes/ideas.js`) derives from a thrown error message. -/
def deleteIdeaHttpStatus (msg : String) : Nat :=
  if strIncludes msg "Invalid" then 400
  else if strIncludes msg "Unauthorized" then 403
  else if strIncludes msg "not found" then 404
  else 500

/-- Model of JavaScript `String.prototype.trim`: strip leading and trailing
whitespace (written over the character list so that proofs can evaluate it). -/
def jsTrim (s : String) : String :=
  String.mk (((s.data.dropWhile Char.isWhitespace).reverse.dropWhile Char.isWhitespace).reverse)

/-- Model of JavaScript `String.prototype.toLowerCase` (over the character
list so that proofs can evaluate it). -/
def jsToLower (s : String) : String :=
  String.mk (s.data.map Char.toLower)

/-- Model of Mongoose `sanitizeInput`: trims the string (the script-tag
stripping regex never fires on the inputs considered here and is not
modelled). -/
def sanitizeInput (s : String) : String :=
  jsTrim s

/-- The string name of a ProposalStatus value, as it appears in JS template
strings. -/
def proposalStatusName : ProposalStatus → String
  | ProposalStatus.PENDING => "PENDING"
  | ProposalStatus.ACCEPTED => "ACCEPTED"
  | ProposalStatus.REJECTED => "REJECTED"

/-- Model of `ProposalService.validateStatusUpdateInput`: the enum-membership
check on `status` holds by typing; a REJECTED update requires a rejection
reason of 3 to 500 characters after trimming. -/
def validateStatusUpdateInput (status : ProposalStatus)
    (rejectionReason : Option String) : List String :=
  if status = ProposalStatus.REJECTED then
    (match rejectionReason with
     | none => ["Rejection reason is required and must be at least 3 characters long"]
     | some r =>
       (if (jsTrim r).length < 3 then
         ["Rejection reason is required and must be at least 3 characters long"] else [])
         ++ (if (jsTrim r).length > 500 then
           ["Rejection reason cannot exceed 500 characters"] else []))
  else []

/-- Model of `ProposalService.updateProposalStatus` (Mongoose revision,
`src/unnamed/part_001`): validate the input, look the Proposal up with its
SubIdea/Idea populate chain (a broken chain raises a TypeError that the catch
turns into the generic failure message, with the transaction rolled back),
require the actor to be the parent Idea's author, require the current status to
be PENDING, then update status and rejection reason. -/
def proposalServiceUpdateStatus (db : DB) (proposalId : Nat) (status : ProposalStatus)
    (rejectionReason : Option String) (userId : Nat) : SvcOutcome :=
  let errs := validateStatusUpdateInput status rejectionReason
  if errs ≠ [] then ⟨some (String.intercalate ", " errs), db⟩
  else
    match findProposal db.proposals proposalId with
    | none => ⟨some "Proposal not found", db⟩
    | some p =>
      match (findSubIdea db.subIdeas p.subIdeaId).bind (fun s => findIdea db.ideas s.ideaId) with
      | none => ⟨some "Failed to update proposal status", db⟩
      | some idea =>
        if idea.authorId ≠ userId then
          ⟨some "Unauthorized: Only the idea author can accept or reject proposals", db⟩
        else if p.status ≠ ProposalStatus.PENDING then
          ⟨some ("Cannot update proposal status. Current status: " ++ proposalStatusName p.status), db⟩
        else
          ⟨none, { db with proposals := db.proposals.map (fun q =>
            if q.id == proposalId then
              { q with
                status := status,
                rejectionReason :=
                  if status = ProposalStatus.REJECTED then rejectionReason.map sanitizeInput
                  else none }
            else q) }⟩

/-- HTTP status that `PATCH /api/proposals/:id/status` (service revision,
`src/unnamed/part_010`) derives from a thrown error message. -/
def proposalStatusUpdateHttpStatus (msg : String) : Nat :=
  if strIncludes msg "must be" || strIncludes msg "Invalid" then 400
  else if strIncludes msg "Unauthorized" then 403
  else if strIncludes msg "not found" then 404
  else if strIncludes msg "Cannot update" then 409
  else 500

/-- Model of `PATCH /api/proposals/:id/status` (current revision of
`src/routes/proposals.js`): enum membership of `status` holds by typing; 404 on
a missing Proposal; a broken SubIdea/Idea select chain is a TypeError -> 500;
403 unless the actor is the parent Idea's author; then the status is updated
UNCONDITIONALLY (this revision never checks that the current status is
PENDING), with `rejectionReason` kept only for REJECTED. -/
def updateProposalStatusRoute (db : DB) (userId proposalId : Nat)
    (status : ProposalStatus) (rejectionReason : Option String) : RouteResult :=
  match findProposal db.proposals proposalId with
  | none => ⟨404, db⟩
  | some p =>
    match (findSubIdea db.subIdeas p.subIdeaId).bind (fun s => findIdea db.ideas s.ideaId) with
    | none => ⟨500, db⟩
    | some idea =>
      if userId ≠ idea.authorId then ⟨403, db⟩
      else
        ⟨200, { db with proposals := db.proposals.map (fun q =>
          if q.id == proposalId then
            { q with
              status := status,
              rejectionReason :=
                if status = ProposalStatus.REJECTED then rejectionReason else none }
          else q) }⟩

/-- Model of the regex `/^https?:\/\/.+/` used by the services to validate
URLs: an `http://` or `https://` prefix followed by at least one character. -/
def urlOk (s : String) : Bool :=
  (List.isPrefixOf "http://".data s.data && 7 < s.length) ||
    (List.isPrefixOf "https://".data s.data && 8 < s.length)

/-- Model of `PrototypeService.validatePrototypeInput`. -/
def validatePrototypeInput (title description imageUrl : String)
    (liveUrl : Option String) : List String :=
  (if (jsTrim title).length < 3 then ["Title must be at least 3 characters long"] else [])
    ++ (if title ≠ "" ∧ (jsTrim title).length > 200 then ["Title cannot exceed 200 characters"] else [])
    ++ (if (jsTrim description).length < 10 then
      ["Description must be at least 10 characters long"] else [])
    ++ (if description ≠ "" ∧ (jsTrim description).length > 2000 then
      ["Description cannot exceed 2000 characters"] else [])
    ++ (if imageUrl = "" then ["Image URL is required"]
      else if ¬ urlOk imageUrl then ["Image URL must be a valid HTTP/HTTPS URL"] else [])
    ++ (match liveUrl with
      | some u => if u ≠ "" ∧ ¬ urlOk u then ["Live URL must be a valid HTTP/HTTPS URL"] else []
      | none => [])

/-- Model of `PrototypeService.createPrototype` (Mongoose revision,
`src/unnamed/part_003`): validate, require the author to exist, require the
Proposal to exist AND be ACCEPTED (null check first, then status check), allow
at most one prototype per (author, proposal), then create the prototype with
the author on the team and `$inc` `totalPrototypes` on the ancestor Idea.  A
missing SubIdea in the populate chain raises a TypeError after the save, which
aborts the `withTransaction`, so nothing persists and the generic failure
message is thrown. -/
def prototypeServiceCreatePrototype (db : DB) (authorId proposalId : Nat)
    (title description imageUrl : String) (liveUrl : Option String) : SvcOutcome :=
  let errs := validatePrototypeInput title description imageUrl liveUrl
  if errs ≠ [] then ⟨some (String.intercalate ", " errs), db⟩
  else if (findUser db.users authorId).isNone then ⟨some "Author not found", db⟩
  else
    match findProposal db.proposals proposalId with
    | none => ⟨some "Proposal not found", db⟩
    | some p =>
      if p.status ≠ ProposalStatus.ACCEPTED then
        ⟨some "Prototypes can only be created for accepted proposals", db⟩
      else if (db.prototypes.find? (fun pr =>
          pr.authorId == authorId && pr.proposalId == proposalId)).isSome then
        ⟨some "You already have a prototype for this proposal", db⟩
      else
        match findSubIdea db.subIdeas p.subIdeaId with
        | none => ⟨some "Failed to create prototype", db⟩
        | some s =>
          ⟨none, { db with
            prototypes := db.prototypes ++
              [{ id := db.nextPrototypeId, authorId := authorId, proposalId := proposalId,
                 title := sanitizeInput title, description := sanitizeInput description,
                 imageUrl := sanitizeInput imageUrl, liveUrl := liveUrl.map sanitizeInput }],
            teamMembers := db.teamMembers ++ [⟨db.nextPrototypeId, authorId⟩],
            ideas := bumpTotalPrototypes db.ideas s.ideaId 1,
            nextPrototypeId := db.nextPrototypeId + 1 }⟩

/-- HTTP status that `POST /api/prototypes/submit/:proposalId` (service
revision, `src/unnamed/part_006`) derives from a thrown error message. -/
def prototypeSubmitHttpStatus (msg : String) : Nat :=
  if strIncludes msg "must be" || strIncludes msg "required" || strIncludes msg "Invalid" then 400
  else if strIncludes msg "not found" then 404
  else if strIncludes msg "already have" || strIncludes msg "can only be created" then 409
  else 500

/-- Model of `SubIdeaService.validateSubIdeaInput`: title 3 to 200 chars,
description 10 to 2000 chars after trimming; the status-enum and
ideaId-presence checks hold by typing. -/
def validateSubIdeaInput (title description : String) : List String :=
  (if (jsTrim title).length < 3 then ["Title must be at least 3 characters long"] else [])
    ++ (if title ≠ "" ∧ (jsTrim title).length > 200 then ["Title cannot exceed 200 characters"] else [])
    ++ (if (jsTrim description).length < 10 then
      ["Description must be at least 10 characters long"] else [])
    ++ (if description ≠ "" ∧ (jsTrim description).length > 2000 then
      ["Description cannot exceed 2000 characters"] else [])

/-- Model of `SubIdeaService.createSubIdea` (Mongoose revision,
`src/unnamed/part_000`): validate, require the author and the parent Idea to
exist, reject a CLOSED parent, reject a duplicate title (case-insensitive,
scoped to this author and idea), then create the SubIdea. -/
def subIdeaServiceCreateSubIdea (db : DB) (authorId : Nat) (title description : String)
    (status : SubIdeaStatus) (ideaId : Nat) : SvcOutcome :=
  let errs := validateSubIdeaInput title description
  if errs ≠ [] then ⟨some (String.intercalate ", " errs), db⟩
  else if (findUser db.users authorId).isNone then ⟨some "Author not found", db⟩
  else
    match findIdea db.ideas ideaId with
    | none => ⟨some "Parent idea not found", db⟩
    | some parentIdea =>
      if parentIdea.status = IdeaStatus.CLOSED then
        ⟨some "Cannot create sub-ideas for closed ideas", db⟩
      else if (db.subIdeas.find? (fun s => s.authorId == authorId && s.ideaId == ideaId &&
          jsToLower s.title == jsToLower (jsTrim title))).isSome then
        ⟨some "You already have a sub-idea with this title for this idea", db⟩
      else
        ⟨none, { db with
          subIdeas := db.subIdeas ++
            [{ id := db.nextSubIdeaId, authorId := authorId, ideaId := ideaId,
               status := status, title := sanitizeInput title }],
          nextSubIdeaId := db.nextSubIdeaId + 1 }⟩

/-- HTTP status that `POST /api/subideas` (`src/routes/subIdeas.js`) derives
from a thrown error message. -/
def subIdeaCreateHttpStatus (msg : String) : Nat :=
  if strIncludes msg "must be" || strIncludes msg "required" || strIncludes msg "Invalid" then 400
  else if strIncludes msg "not found" then 404
  else if strIncludes msg "already have" || strIncludes msg "Cannot create" then 409
  else 500

/-- Outcome of the part_009 sub-idea handler: `response = some s` when the
handler sends an HTTP response with status `s`, and `response = none` when the
handler throws an unhandled exception before reaching its `try` block, so that
no response is ever sent for the request. -/
structure Part009Outcome where
  response : Option Nat
  db : DB
  deriving DecidableEq

/-- Model of `POST /:ideaId/subideas` (Prisma revision, `src/unnamed/part_009`).
That module imports only `express`, `PrismaClient` and `authMiddleware` and
defines no enum locally, so the identifier `SubIdeaStatus` in
`Object.values(SubIdeaStatus).includes(status)` is undefined.  A request whose
`title`, `description` or `status` body field is missing or empty is answered
400 by the presence check; every other request reaches that line and throws
`ReferenceError` outside the `try` block, so the handler sends no response and
`prisma.subIdea.create` is never executed — the 201 branch, the P2025/404
branch and the catch-all 500 are all unreachable, and no SubIdea row is ever
created by this revision.  `ideaId` is the raw route-parameter string and the
author id is taken from the verified token; neither is ever used. -/
def createSubIdeaPrisma (db : DB) (authorId : Nat) (ideaId : String)
    (title description status : String) : Part009Outcome :=
  if title = "" ∨ description = "" ∨ status = "" then ⟨some 400, db⟩
  else ⟨none, db⟩

/-- Model of `ProposalService.deleteProposal` (Mongoose revision,
`src/unnamed/part_001`): look the Proposal up with its SubIdea populated,
require the actor to be the author or an ADMIN, delete it and `$inc`
`totalProposals` by -1 on the parent Idea inside one transaction.  A missing
SubIdea makes `existingProposal.subIdea.ideaId` a TypeError after the delete,
aborting the transaction, so nothing persists. -/
def proposalServiceDeleteProposal (db : DB) (proposalId userId : Nat)
    (userRole : Role) : SvcOutcome :=
  match findProposal db.proposals proposalId with
  | none => ⟨some "Proposal not found", db⟩
  | some p =>
    if p.authorId ≠ userId ∧ userRole ≠ Role.ADMIN then
      ⟨some "Unauthorized: Only the proposal author or admin can delete this proposal", db⟩
    else
      match findSubIdea db.subIdeas p.subIdeaId with
      | none => ⟨some "Failed to delete proposal", db⟩
      | some s =>
        ⟨none, { db with
          proposals := db.proposals.filter (fun q => !(q.id == proposalId)),
          ideas := bumpTotalProposals db.ideas s.ideaId (-1) }⟩

/-- Model of `PrototypeService.deletePrototype` (Mongoose revision,
`src/unnamed/part_003`): look the Prototype up with its Proposal and SubIdea
populated, require the actor to be the author or an ADMIN, delete it and `$inc`
`totalPrototypes` by -1 on the ancestor Idea inside one transaction.  A broken
populate chain is a TypeError that aborts the transaction. -/
def prototypeServiceDeletePrototype (db : DB) (prototypeId userId : Nat)
    (userRole : Role) : SvcOutcome :=
  match findPrototype db.prototypes prototypeId with
  | none => ⟨some "Prototype not found", db⟩
  | some pr =>
    if pr.authorId ≠ userId ∧ userRole ≠ Role.ADMIN then
      ⟨some "Unauthorized: Only the prototype author or admin can delete this prototype", db⟩
    else
      match (findProposal db.proposals pr.proposalId).bind
          (fun p => findSubIdea db.subIdeas p.subIdeaId) with
      | none => ⟨some "Failed to delete prototype", db⟩
      | some s =>
        ⟨none, { db with
          prototypes := db.prototypes.filter (fun q => !(q.id == prototypeId)),
          ideas := bumpTotalPrototypes db.ideas s.ideaId (-1) }⟩

/-- Model of `prisma.comment.findUnique`. -/
def findComment (comments : List CommentRow) (i : Nat) : Option CommentRow :=
  comments.find? (fun c => c.id == i)

/-- The parent-reply check of `POST /api/comments/:subIdeaId`: when a parent
comment id is given, it must name an existing comment whose `subIdeaId` equals
the target SubIdea (`!parentComment || parentComment.subIdeaId !== subIdeaId`). -/
def parentCommentOk (comments : List CommentRow) (subIdeaId : Nat)
    (parentCommentId : Option Nat) : Bool :=
  match parentCommentId with
  | none => true
  | some pid =>
    match findComment comments pid with
    | none => false
    | some pc => pc.subIdeaId == some subIdeaId

/-- Model of `POST /api/comments/:subIdeaId` (`src/routes/comments.js`): 400 on
empty (trimmed) content, 404 on a missing SubIdea; when a parent comment id is
given, 400 unless that comment exists and carries the same `subIdeaId`;
otherwise create the comment.  A missing author violates `Comment_authorId_fkey`
and surfaces as 500. -/
def createCommentOnSubIdea (db : DB) (authorId subIdeaId : Nat) (content : String)
    (parentCommentId : Option Nat) : RouteResult :=
  if jsTrim content = "" then ⟨400, db⟩
  else if (findSubIdea db.subIdeas subIdeaId).isNone then ⟨404, db⟩
  else if !(parentCommentOk db.comments subIdeaId parentCommentId) then ⟨400, db⟩
    else if (findUser db.users authorId).isNone then ⟨500, db⟩
    else
      ⟨201, { db with
        comments := db.comments ++
          [{ id := db.nextCommentId, authorId := authorId, subIdeaId := some subIdeaId,
             prototypeId := none, parentCommentId := parentCommentId,
             content := jsTrim content }],
        nextCommentId := db.nextCommentId + 1 }⟩

/-- The row the SubIdea voting upsert creates when no vote exists. -/
def newSubVote (userId subIdeaId : Nat) (value : Int) : VoteRow :=
  { userId := userId, subIdeaId := some subIdeaId, proposalId := none,
    prototypeId := none, value := value }

/-- The row the Prototype voting upsert creates when no vote exists. -/
def newProtoVote (userId prototypeId : Nat) (value : Int) : VoteRow :=
  { userId := userId, subIdeaId := none, proposalId := none,
    prototypeId := some prototypeId, value := value }

/-- Result of a voting route: status, the `action` string of the response,
the recomputed aggregate counts for the target, and the new database. -/
structure VoteResult where
  status : Nat
  action : Option String
  upvotes : Nat
  downvotes : Nat
  db : DB
  deriving DecidableEq

/-- The unique-index key `userId_subIdeaId` used by the SubIdea voting route. -/
def voteKeySub (userId subIdeaId : Nat) (v : VoteRow) : Bool :=
  v.userId == userId && v.subIdeaId == some subIdeaId

/-- The unique-index key `userId_prototypeId` used by the Prototype voting
route. -/
def voteKeyProto (userId prototypeId : Nat) (v : VoteRow) : Bool :=
  v.userId == userId && v.prototypeId == some prototypeId

/-- Model of `POST /api/votes/subideas/:subIdeaId` (`src/routes/votes.js`):
400 unless the value is 1 or -1, 404 on a missing SubIdea; an existing vote of
the same value is deleted (`action: removed`), an existing vote of the other
value is updated in place by the upsert (`action: updated`), and with no
existing vote the upsert creates one (`action: created`); the response then
recomputes the aggregate up/down counts over all users of the target.  The
Prisma delete/update act on the one row matched by the unique index; the
filter/map below agree with that whenever the unique index holds. -/
def voteOnSubIdea (db : DB) (userId subIdeaId : Nat) (value : Int) : VoteResult :=
  if ¬ (value = 1 ∨ value = -1) then ⟨400, none, 0, 0, db⟩
  else if (findSubIdea db.subIdeas subIdeaId).isNone then ⟨404, none, 0, 0, db⟩
  else
    let existing := db.votes.find? (voteKeySub userId subIdeaId)
    let votes1 :=
      match existing with
      | some ev =>
        if ev.value = value then db.votes.filter (fun w => !(voteKeySub userId subIdeaId w))
        else db.votes.map (fun w =>
          if voteKeySub userId subIdeaId w then { w with value := value } else w)
      | none => db.votes ++ [newSubVote userId subIdeaId value]
    let action :=
      match existing with
      | some ev => if ev.value = value then "removed" else "updated"
      | none => "created"
    ⟨200, some action,
      votes1.countP (fun w => w.subIdeaId == some subIdeaId && w.value == 1),
      votes1.countP (fun w => w.subIdeaId == some subIdeaId && w.value == -1),
      { db with votes := votes1 }⟩

/-- Model of `POST /api/votes/prototypes/:prototypeId` (`src/routes/votes.js`),
the mirror of the SubIdea voting route over the `userId_prototypeId` key. -/
def voteOnPrototype (db : DB) (userId prototypeId : Nat) (value : Int) : VoteResult :=
  if ¬ (value = 1 ∨ value = -1) then ⟨400, none, 0, 0, db⟩
  else if (findPrototype db.prototypes prototypeId).isNone then ⟨404, none, 0, 0, db⟩
  else
    let existing := db.votes.find? (voteKeyProto userId prototypeId)
    let votes1 :=
      match existing with
      | some ev =>
        if ev.value = value then db.votes.filter (fun w => !(voteKeyProto userId prototypeId w))
        else db.votes.map (fun w =>
          if voteKeyProto userId prototypeId w then { w with value := value } else w)
      | none => db.votes ++ [newProtoVote userId prototypeId value]
    let action :=
      match existing with
      | some ev => if ev.value = value then "removed" else "updated"
      | none => "created"
    ⟨200, some action,
      votes1.countP (fun w => w.prototypeId == some prototypeId && w.value == 1),
      votes1.countP (fun w => w.prototypeId == some prototypeId && w.value == -1),
      { db with votes := votes1 }⟩

/-- The unique indexes `Vote_userId_subIdeaId_key` and
`Vote_userId_prototypeId_key`: no two vote rows share a user and a non-null
SubIdea target, nor a user and a non-null Prototype target. -/
def votesAtMostOne (votes : List VoteRow) : Prop :=
  votes.Pairwise (fun v w =>
    ¬(v.userId = w.userId ∧ v.subIdeaId.isSome ∧ v.subIdeaId = w.subIdeaId) ∧
      ¬(v.userId = w.userId ∧ v.prototypeId.isSome ∧ v.prototypeId = w.prototypeId))

instance : DecidablePred votesAtMostOne := by
  unfold votesAtMostOne; infer_instance

/-- A small concrete database used by the witnesses and counterexamples below:
three users (author 1, other 2, admin 3), an OPEN idea 10 and a CLOSED idea 11
by user 1, a SubIdea 20 under idea 10, an ACCEPTED proposal 30 and a PENDING
proposal 31 under SubIdea 20, and a prototype 40 under proposal 30. -/
def exDB : DB where
  users := [⟨1, Role.USER, 5⟩, ⟨2, Role.USER, 7⟩, ⟨3, Role.ADMIN, 0⟩]
  ideas :=
    [⟨10, 1, IdeaType.IDEATION, IdeaStatus.OPEN, 2, 1⟩,
     ⟨11, 1, IdeaType.SOLUTION_REQUEST, IdeaStatus.CLOSED, 0, 0⟩]
  subIdeas := [⟨20, 2, 10, SubIdeaStatus.OPEN_FOR_PROTOTYPING, "widget"⟩]
  proposals :=
    [⟨30, 2, 20, ProposalStatus.ACCEPTED, "proposal a", "a long description", none, none⟩,
     ⟨31, 2, 20, ProposalStatus.PENDING, "proposal b", "a long description", none, none⟩]
  prototypes := [⟨40, 2, 30, "proto", "a long description", "http://img.example/x", none⟩]
  teamMembers := [⟨40, 2⟩]
  votes := [⟨1, some 20, none, none, 1⟩]
  comments := [⟨50, 1, some 20, none, none, "hi"⟩, ⟨51, 1, none, some 40, none, "yo"⟩]
  nextIdeaId := 12
  nextSubIdeaId := 21
  nextProposalId := 32
  nextPrototypeId := 41
  nextCommentId := 51

set_option maxRecDepth 8000

/-- C3 counterexample: user 2 is neither the author of idea 10 (user 1) nor an
ADMIN, yet the Prisma cascade route deletes the idea and answers 200 — the
handler never consults the authenticated actor. -/
theorem c3_counterexample :
    (findIdea exDB.ideas 10).map Idea.authorId = some 1 ∧ (2 : Nat) ≠ 1 ∧
      Role.USER ≠ Role.ADMIN ∧
      (deleteIdea exDB 2 Role.USER 10).status = 200 ∧
      findIdea (deleteIdea exDB 2 Role.USER 10).db.ideas 10 = none := by
  decide

/-- C3 amended: in the service implementation (`IdeaService.deleteIdea` plus
the `DELETE /api/ideas/:id` route of `src/routes/ideas.js`), a delete request
by an actor who is neither the Idea's author nor an ADMIN fails with
Unauthorized, mapped to 403, and leaves the database unchanged; the Prisma
cascade route of `src/unnamed/part_008` performs the delete without any
authorization check. -/
theorem c3_service_delete_forbidden (db : DB) (ideaId userId : Nat) (userRole : Role)
    (idea : Idea) (hfind : findIdea db.ideas ideaId = some idea)
    (hauthor : idea.authorId ≠ userId) (hrole : userRole ≠ Role.ADMIN) :
    (ideaServiceDeleteIdea db ideaId userId userRole).error =
        some "Unauthorized to delete this idea" ∧
      deleteIdeaHttpStatus "Unauthorized to delete this idea" = 403 ∧
      (ideaServiceDeleteIdea db ideaId userId userRole).db = db := by
  simp only [ideaServiceDeleteIdea, hfind]
  rw [if_pos ⟨hauthor, hrole⟩]
  exact ⟨rfl, by decide, rfl⟩

/-- C3 witness: the amended theorem applied to the concrete database, actor
user 2 with role USER, idea 10 authored by user 1. -/
theorem c3_witness :
    (findIdea exDB.ideas 10 = some ⟨10, 1, IdeaType.IDEATION, IdeaStatus.OPEN, 2, 1⟩ ∧
        (10 : Nat) ≠ 2 ∧ Role.USER ≠ Role.ADMIN) ∧
      ((ideaServiceDeleteIdea exDB 10 2 Role.USER).error =
          some "Unauthorized to delete this idea" ∧
        deleteIdeaHttpStatus "Unauthorized to delete this idea" = 403 ∧
        (ideaServiceDeleteIdea exDB 10 2 Role.USER).db = exDB) :=
  ⟨⟨by decide, by decide, by decide⟩,
    c3_service_delete_forbidden exDB 10 2 Role.USER
      ⟨10, 1, IdeaType.IDEATION, IdeaStatus.OPEN, 2, 1⟩ (by decide) (by decide) (by decide)⟩

/-- C6: the prototype submit route reads `proposal.status` before its null
check, so a request naming a non-existent proposal answers 500 (never the
intended 404 of the unreachable null-check branch) and creates nothing;
`PrototypeService.createPrototype` performs the null check first and yields
`Proposal not found` -> 404, which is the behavior the claim describes. -/
theorem c6_missing_proposal_500 (db : DB) (authorId proposalId : Nat)
    (title description imageUrl : String) (liveUrl : Option String)
    (ht : ¬(title = "" ∨ description = "" ∨ imageUrl = ""))
    (hp : findProposal db.proposals proposalId = none) :
    (submitPrototype db authorId proposalId title description imageUrl liveUrl).status = 500 ∧
      (submitPrototype db authorId proposalId title description imageUrl liveUrl).status ≠ 404 ∧
      (submitPrototype db authorId proposalId title description imageUrl liveUrl).db = db := by
  simp only [submitPrototype, if_neg ht, hp]
  exact ⟨trivial, by decide, trivial⟩

/-- C6 witness: submitting a prototype for the absent proposal 999 on the
concrete database. -/
theorem c6_witness :
    (¬(("t" : String) = "" ∨ ("d" : String) = "" ∨ ("http://x" : String) = "") ∧
        findProposal exDB.proposals 999 = none) ∧
      ((submitPrototype exDB 2 999 "t" "d" "http://x" none).status = 500 ∧
        (submitPrototype exDB 2 999 "t" "d" "http://x" none).status ≠ 404 ∧
        (submitPrototype exDB 2 999 "t" "d" "http://x" none).db = exDB) :=
  ⟨⟨by decide, by decide⟩,
    c6_missing_proposal_500 exDB 2 999 "t" "d" "http://x" none (by decide) (by decide)⟩

/-- C8 counterexample: idea 11 is CLOSED, yet a fully-populated sub-idea
creation request against the Prisma revision of the route
(`POST /:ideaId/subideas`, `src/unnamed/part_009`) is never answered 409: the
handler dereferences the undefined identifier `SubIdeaStatus` before its `try`
block and dies with `ReferenceError`, sending no response at all (and creating
no row), so the claimed InvalidState/409 failure does not happen on this
revision. -/
theorem c8_counterexample :
    (findIdea exDB.ideas 11).map Idea.status = some IdeaStatus.CLOSED ∧
      (createSubIdeaPrisma exDB 2 "11" "abc" "some text" "SELF_PROTOTYPING").response = none ∧
      ¬ (createSubIdeaPrisma exDB 2 "11" "abc" "some text" "SELF_PROTOTYPING").response =
        some 409 ∧
      (createSubIdeaPrisma exDB 2 "11" "abc" "some text" "SELF_PROTOTYPING").db = exDB := by
  decide

/-- C8 amended: on the service path (`POST /api/subideas` via
`SubIdeaService.createSubIdea`), a sub-idea creation request whose parent Idea
exists and is CLOSED fails with `Cannot create sub-ideas for closed ideas`,
mapped to 409, and no SubIdea row is created.  The Prisma revision of the route
(`src/unnamed/part_009`) never delivers the 409: its handler references the
undefined `SubIdeaStatus` outside the `try` block, so every request passing the
presence check crashes with an unhandled `ReferenceError` and receives no
response (creating no row either); only the presence check's 400 is
reachable. -/
theorem c8_closed_idea_409 (db : DB) (authorId : Nat) (title description : String)
    (status : SubIdeaStatus) (ideaId : Nat) (parent : Idea)
    (herrs : validateSubIdeaInput title description = [])
    (hauthor : (findUser db.users authorId).isSome = true)
    (hidea : findIdea db.ideas ideaId = some parent)
    (hclosed : parent.status = IdeaStatus.CLOSED) :
    (subIdeaServiceCreateSubIdea db authorId title description status ideaId).error =
        some "Cannot create sub-ideas for closed ideas" ∧
      subIdeaCreateHttpStatus "Cannot create sub-ideas for closed ideas" = 409 ∧
      (subIdeaServiceCreateSubIdea db authorId title description status ideaId).db = db := by
  rw [Option.isSome_iff_exists] at hauthor
  obtain ⟨u, hu⟩ := hauthor
  simp only [subIdeaServiceCreateSubIdea, herrs, hu, hidea, Option.isNone_some, ne_eq,
    not_true_eq_false, if_false, Bool.false_eq_true]
  rw [if_pos hclosed]
  exact ⟨rfl, by decide, rfl⟩

/-- C8 witness: the amended theorem applied to the concrete database, with the
CLOSED idea 11 as parent. -/
theorem c8_witness :
    (validateSubIdeaInput "abc" "a long description" = [] ∧
        (findUser exDB.users 2).isSome = true ∧
        findIdea exDB.ideas 11 =
          some ⟨11, 1, IdeaType.SOLUTION_REQUEST, IdeaStatus.CLOSED, 0, 0⟩ ∧
        IdeaStatus.CLOSED = IdeaStatus.CLOSED) ∧
      ((subIdeaServiceCreateSubIdea exDB 2 "abc" "a long description"
            SubIdeaStatus.SELF_PROTOTYPING 11).error =
          some "Cannot create sub-ideas for closed ideas" ∧
        subIdeaCreateHttpStatus "Cannot create sub-ideas for closed ideas" = 409 ∧
        (subIdeaServiceCreateSubIdea exDB 2 "abc" "a long description"
            SubIdeaStatus.SELF_PROTOTYPING 11).db = exDB) :=
  ⟨⟨by decide, by decide, by decide, rfl⟩,
    c8_closed_idea_409 exDB 2 "abc" "a long description" SubIdeaStatus.SELF_PROTOTYPING 11
      ⟨11, 1, IdeaType.SOLUTION_REQUEST, IdeaStatus.CLOSED, 0, 0⟩
      (by decide) (by decide) (by decide) (by decide)⟩

/-- C9: a reply on a SubIdea whose declared parent comment does not exist, or
exists but belongs to a different target, is rejected with 400 and no Comment
row is created. -/
theorem c9_reply_wrong_parent_400 (db : DB) (authorId subIdeaId pid : Nat)
    (content : String) (hc : jsTrim content ≠ "")
    (hs : (findSubIdea db.subIdeas subIdeaId).isSome = true)
    (hbad : ∀ pc, findComment db.comments pid = some pc → pc.subIdeaId ≠ some subIdeaId) :
    (createCommentOnSubIdea db authorId subIdeaId content (some pid)).status = 400 ∧
      (createCommentOnSubIdea db authorId subIdeaId content (some pid)).db = db := by
  rw [Option.isSome_iff_exists] at hs
  obtain ⟨s, hsome⟩ := hs
  have hpo : parentCommentOk db.comments subIdeaId (some pid) = false := by
    simp only [parentCommentOk]
    cases hpc : findComment db.comments pid with
    | none => rfl
    | some pc => simpa using hbad pc hpc
  simp only [createCommentOnSubIdea, if_neg hc, hsome, Option.isNone_some,
    Bool.false_eq_true, if_false, hpo, Bool.not_false, if_true]
  exact ⟨trivial, trivial⟩

/-- C9 witness: replying on SubIdea 20 with parent comment 51, which targets
prototype 40 rather than SubIdea 20. -/
theorem c9_witness :
    (jsTrim "reply" ≠ "" ∧ (findSubIdea exDB.subIdeas 20).isSome = true ∧
        ∀ pc, findComment exDB.comments 51 = some pc → pc.subIdeaId ≠ some 20) ∧
      ((createCommentOnSubIdea exDB 1 20 "reply" (some 51)).status = 400 ∧
        (createCommentOnSubIdea exDB 1 20 "reply" (some 51)).db = exDB) :=
  ⟨⟨by decide, by decide, by decide⟩,
    c9_reply_wrong_parent_400 exDB 1 20 51 "reply" (by decide) (by decide) (by decide)⟩

/-- C4 counterexample: proposal 30 is ACCEPTED, yet the idea author (user 1)
can PATCH it back to PENDING through the status route, which answers 200 — the
decided status is not one-way on this path. -/
theorem c4_counterexample :
    (findProposal exDB.proposals 30).map Proposal.status = some ProposalStatus.ACCEPTED ∧
      (updateProposalStatusRoute exDB 1 30 ProposalStatus.PENDING none).status = 200 ∧
      (findProposal (updateProposalStatusRoute exDB 1 30
          ProposalStatus.PENDING none).db.proposals 30).map Proposal.status =
        some ProposalStatus.PENDING := by
  decide

/-- C4 amended: a status update by any user other than the parent Idea's
author fails with Forbidden (403 on the route, `Unauthorized` -> 403 on the
service) leaving the proposal unchanged; the one-way PENDING restriction is
enforced only by `ProposalService.updateProposalStatus`, which rejects with
`Cannot update proposal status` -> 409 whenever the current status is not
PENDING, while the `PATCH /:id/status` route lets the idea author set any
status, including back to PENDING. -/
theorem c4_status_gate (db : DB) (proposalId userId : Nat) (status : ProposalStatus)
    (rejectionReason : Option String) (p : Proposal) (idea : Idea)
    (hp : findProposal db.proposals proposalId = some p)
    (hchain : (findSubIdea db.subIdeas p.subIdeaId).bind
      (fun s => findIdea db.ideas s.ideaId) = some idea)
    (herrs : validateStatusUpdateInput status rejectionReason = []) :
    (userId ≠ idea.authorId →
      (updateProposalStatusRoute db userId proposalId status rejectionReason).status = 403 ∧
        (updateProposalStatusRoute db userId proposalId status rejectionReason).db = db) ∧
      (idea.authorId ≠ userId →
        (proposalServiceUpdateStatus db proposalId status rejectionReason userId).error =
            some "Unauthorized: Only the idea author can accept or reject proposals" ∧
          proposalStatusUpdateHttpStatus
            "Unauthorized: Only the idea author can accept or reject proposals" = 403 ∧
          (proposalServiceUpdateStatus db proposalId status rejectionReason userId).db = db) ∧
      (idea.authorId = userId → p.status ≠ ProposalStatus.PENDING →
        (proposalServiceUpdateStatus db proposalId status rejectionReason userId).error =
            some ("Cannot update proposal status. Current status: " ++
              proposalStatusName p.status) ∧
          proposalStatusUpdateHttpStatus
            ("Cannot update proposal status. Current status: " ++
              proposalStatusName p.status) = 409 ∧
          (proposalServiceUpdateStatus db proposalId status rejectionReason userId).db = db) := by
  have he : ¬ (validateStatusUpdateInput status rejectionReason ≠ []) := by simp [herrs]
  refine ⟨fun h => ?_, fun h => ?_, fun h h2 => ?_⟩
  · simp only [updateProposalStatusRoute, hp, hchain]
    rw [if_pos h]
    exact ⟨rfl, rfl⟩
  · simp only [proposalServiceUpdateStatus, if_neg he, hp, hchain]
    rw [if_pos h]
    exact ⟨rfl, by decide, rfl⟩
  · simp only [proposalServiceUpdateStatus, if_neg he, hp, hchain]
    rw [if_neg (fun hn => hn h), if_pos h2]
    refine ⟨rfl, ?_, rfl⟩
    cases hps : p.status with
    | PENDING => exact absurd hps h2
    | ACCEPTED => decide
    | REJECTED => decide

/-- C4 witness: the amended theorem applied to the ACCEPTED proposal 30 under
idea 10 (author user 1) in the concrete database. -/
theorem c4_witness :
    (findProposal exDB.proposals 30 =
        some ⟨30, 2, 20, ProposalStatus.ACCEPTED, "proposal a", "a long description",
          none, none⟩ ∧
      (findSubIdea exDB.subIdeas 20).bind (fun s => findIdea exDB.ideas s.ideaId) =
        some ⟨10, 1, IdeaType.IDEATION, IdeaStatus.OPEN, 2, 1⟩ ∧
      validateStatusUpdateInput ProposalStatus.ACCEPTED none = []) ∧
      ((2 ≠ 1 →
        (updateProposalStatusRoute exDB 2 30 ProposalStatus.ACCEPTED none).status = 403 ∧
          (updateProposalStatusRoute exDB 2 30 ProposalStatus.ACCEPTED none).db = exDB) ∧
        ((1 : Nat) ≠ 2 →
          (proposalServiceUpdateStatus exDB 30 ProposalStatus.ACCEPTED none 2).error =
              some "Unauthorized: Only the idea author can accept or reject proposals" ∧
            proposalStatusUpdateHttpStatus
              "Unauthorized: Only the idea author can accept or reject proposals" = 403 ∧
            (proposalServiceUpdateStatus exDB 30 ProposalStatus.ACCEPTED none 2).db = exDB) ∧
        ((1 : Nat) = 2 → ProposalStatus.ACCEPTED ≠ ProposalStatus.PENDING →
          (proposalServiceUpdateStatus exDB 30 ProposalStatus.ACCEPTED none 2).error =
              some ("Cannot update proposal status. Current status: " ++
                proposalStatusName ProposalStatus.ACCEPTED) ∧
            proposalStatusUpdateHttpStatus
              ("Cannot update proposal status. Current status: " ++
                proposalStatusName ProposalStatus.ACCEPTED) = 409 ∧
            (proposalServiceUpdateStatus exDB 30 ProposalStatus.ACCEPTED none 2).db = exDB)) :=
  ⟨⟨by decide, by decide, by decide⟩,
    c4_status_gate exDB 30 2 ProposalStatus.ACCEPTED none
      ⟨30, 2, 20, ProposalStatus.ACCEPTED, "proposal a", "a long description", none, none⟩
      ⟨10, 1, IdeaType.IDEATION, IdeaStatus.OPEN, 2, 1⟩
      (by decide) (by decide) (by decide)⟩

/-- C5 counterexample: proposal 31 exists with status PENDING, and the
service-based submit path does reject the prototype and leave the database
unchanged, but the error maps to 409 Conflict, not the 403 Forbidden the claim
requires of every prototype-creation path. -/
theorem c5_counterexample :
    (findProposal exDB.proposals 31).map Proposal.status = some ProposalStatus.PENDING ∧
      (prototypeServiceCreatePrototype exDB 1 31 "ttt" "a long description"
          "http://img.example/y" none).error =
        some "Prototypes can only be created for accepted proposals" ∧
      prototypeSubmitHttpStatus "Prototypes can only be created for accepted proposals" = 409 ∧
      prototypeSubmitHttpStatus "Prototypes can only be created for accepted proposals" ≠ 403 ∧
      (prototypeServiceCreatePrototype exDB 1 31 "ttt" "a long description"
          "http://img.example/y" none).db = exDB := by
  decide

/-- C5 amended: a prototype-creation request whose target Proposal exists with
status other than ACCEPTED fails and leaves the database (rows and counters)
untouched on both implementations: the direct Prisma route answers 403
Forbidden, while the service-based path throws `Prototypes can only be created
for accepted proposals`, which its route maps to 409 Conflict. -/
theorem c5_not_accepted_rejected (db : DB) (authorId proposalId : Nat)
    (title description imageUrl : String) (liveUrl : Option String) (p : Proposal)
    (hform : ¬(title = "" ∨ description = "" ∨ imageUrl = ""))
    (herrs : validatePrototypeInput title description imageUrl liveUrl = [])
    (hauthor : (findUser db.users authorId).isSome = true)
    (hp : findProposal db.proposals proposalId = some p)
    (hst : p.status ≠ ProposalStatus.ACCEPTED) :
    (submitPrototype db authorId proposalId title description imageUrl liveUrl).status = 403 ∧
      (submitPrototype db authorId proposalId title description imageUrl liveUrl).db = db ∧
      (prototypeServiceCreatePrototype db authorId proposalId title description
          imageUrl liveUrl).error =
        some "Prototypes can only be created for accepted proposals" ∧
      prototypeSubmitHttpStatus "Prototypes can only be created for accepted proposals" = 409 ∧
      (prototypeServiceCreatePrototype db authorId proposalId title description
          imageUrl liveUrl).db = db := by
  have he : ¬ (validatePrototypeInput title description imageUrl liveUrl ≠ []) := by
    simp [herrs]
  rw [Option.isSome_iff_exists] at hauthor
  obtain ⟨u, hu⟩ := hauthor
  simp only [submitPrototype, if_neg hform, hp, prototypeServiceCreatePrototype,
    if_neg he, hu, Option.isNone_some, Bool.false_eq_true, if_false]
  rw [if_pos hst, if_pos hst]
  exact ⟨rfl, rfl, rfl, by decide, rfl⟩

/-- C5 witness: the amended theorem applied to the PENDING proposal 31 in the
concrete database. -/
theorem c5_witness :
    (¬(("ttt" : String) = "" ∨ ("a long description" : String) = "" ∨
          ("http://img.example/y" : String) = "") ∧
      validatePrototypeInput "ttt" "a long description" "http://img.example/y" none = [] ∧
      (findUser exDB.users 1).isSome = true ∧
      findProposal exDB.proposals 31 =
        some ⟨31, 2, 20, ProposalStatus.PENDING, "proposal b", "a long description",
          none, none⟩ ∧
      ProposalStatus.PENDING ≠ ProposalStatus.ACCEPTED) ∧
      ((submitPrototype exDB 1 31 "ttt" "a long description" "http://img.example/y"
            none).status = 403 ∧
        (submitPrototype exDB 1 31 "ttt" "a long description" "http://img.example/y"
            none).db = exDB ∧
        (prototypeServiceCreatePrototype exDB 1 31 "ttt" "a long description"
            "http://img.example/y" none).error =
          some "Prototypes can only be created for accepted proposals" ∧
        prototypeSubmitHttpStatus "Prototypes can only be created for accepted proposals" = 409 ∧
        (prototypeServiceCreatePrototype exDB 1 31 "ttt" "a long description"
            "http://img.example/y" none).db = exDB) :=
  ⟨⟨by decide, by decide, by decide, by decide, by decide⟩,
    c5_not_accepted_rejected exDB 1 31 "ttt" "a long description" "http://img.example/y" none
      ⟨31, 2, 20, ProposalStatus.PENDING, "proposal b", "a long description", none, none⟩
      (by decide) (by decide) (by decide) (by decide) (by decide)⟩

/-- Auxiliary: a `find?` that misses on the first list continues on the second. -/
theorem find?_append_of_none {α : Type} {p : α → Bool} {l₁ l₂ : List α}
    (h : l₁.find? p = none) : (l₁ ++ l₂).find? p = l₂.find? p := by
  induction l₁ with
  | nil => rfl
  | cons x xs ih =>
    by_cases hx : p x = true
    · rw [List.find?_cons_of_pos _ hx] at h; cases h
    · rw [List.find?_cons_of_neg _ (by simpa using hx)] at h
      rw [List.cons_append, List.find?_cons_of_neg _ (by simpa using hx)]
      exact ih h

/-- Auxiliary: filtering away the key of a vote that is absent is the
identity. -/
theorem filter_not_key_eq_self {α : Type} {p : α → Bool} {l : List α}
    (h : l.find? p = none) : l.filter (fun w => !(p w)) = l := by
  rw [List.find?_eq_none] at h
  rw [List.filter_eq_self]
  intro a ha
  simpa using h a ha

/-- Auxiliary: after filtering a key away, that key is no longer found. -/
theorem find?_filter_not_self {α : Type} (p : α → Bool) (l : List α) :
    (l.filter (fun w => !(p w))).find? p = none := by
  rw [List.find?_eq_none]
  intro x hx
  rw [List.mem_filter] at hx
  simpa using hx.2

/-- Auxiliary: the value-updating upsert map turns the found row into the same
row with the new value, for any key that ignores the value field. -/
theorem find?_map_update (l : List VoteRow) (key : VoteRow → Bool) (v : Int)
    (hkey : ∀ w, key { w with value := v } = key w) {ev : VoteRow}
    (h : l.find? key = some ev) :
    (l.map (fun w => if key w then { w with value := v } else w)).find? key =
      some { ev with value := v } := by
  induction l with
  | nil => cases h
  | cons x xs ih =>
    by_cases hx : key x = true
    · rw [List.find?_cons_of_pos _ hx] at h
      injection h with h
      subst h
      rw [List.map_cons, if_pos hx, List.find?_cons_of_pos _ (by rw [hkey]; exact hx)]
    · rw [List.find?_cons_of_neg _ (by simpa using hx)] at h
      rw [List.map_cons, if_neg (by simpa using hx),
        List.find?_cons_of_neg _ (by simpa using hx)]
      exact ih h

/-- Auxiliary: the three identity fields of a vote row survive the upsert
map. -/
theorem voteFieldsPreserved (key : VoteRow → Bool) (v : Int) (x : VoteRow) :
    (if key x then { x with value := v } else x).userId = x.userId ∧
      (if key x then { x with value := v } else x).subIdeaId = x.subIdeaId ∧
      (if key x then { x with value := v } else x).prototypeId = x.prototypeId := by
  split <;> exact ⟨rfl, rfl, rfl⟩

/-- Auxiliary: the unique-index invariant survives deleting rows. -/
theorem votesAtMostOne_filter (votes : List VoteRow) (q : VoteRow → Bool)
    (hinv : votesAtMostOne votes) : votesAtMostOne (votes.filter q) :=
  List.Pairwise.sublist (List.filter_sublist votes) hinv

/-- Auxiliary: the unique-index invariant survives the value-updating upsert
map. -/
theorem votesAtMostOne_map (votes : List VoteRow) (key : VoteRow → Bool) (v : Int)
    (hinv : votesAtMostOne votes) :
    votesAtMostOne (votes.map (fun w => if key w then { w with value := v } else w)) := by
  unfold votesAtMostOne at hinv ⊢
  rw [List.pairwise_map]
  refine hinv.imp ?_
  intro a b hab
  obtain ⟨h1, h2, h3⟩ := voteFieldsPreserved key v a
  obtain ⟨g1, g2, g3⟩ := voteFieldsPreserved key v b
  simp only [h1, h2, h3, g1, g2, g3]
  exact hab

/-- Auxiliary: the unique-index invariant survives appending a row that
clashes with no existing row. -/
theorem votesAtMostOne_append_new (votes : List VoteRow) (a : VoteRow)
    (hinv : votesAtMostOne votes)
    (hnew : ∀ w ∈ votes,
      ¬(w.userId = a.userId ∧ w.subIdeaId.isSome ∧ w.subIdeaId = a.subIdeaId) ∧
        ¬(w.userId = a.userId ∧ w.prototypeId.isSome ∧ w.prototypeId = a.prototypeId)) :
    votesAtMostOne (votes ++ [a]) := by
  unfold votesAtMostOne at hinv ⊢
  rw [List.pairwise_append]
  refine ⟨hinv, List.pairwise_singleton _ _, ?_⟩
  intro w hw b hb
  rw [List.mem_singleton] at hb
  subst hb
  exact hnew w hw

/-- Branch lemma: the SubIdea voting route on a same-value resubmission
deletes the vote. -/
theorem voteOnSubIdea_removed (db : DB) (userId subIdeaId : Nat) (value : Int)
    (ev : VoteRow) (hv : value = 1 ∨ value = -1) (s : SubIdea)
    (hs : findSubIdea db.subIdeas subIdeaId = some s)
    (hev : db.votes.find? (voteKeySub userId subIdeaId) = some ev)
    (hsame : ev.value = value) :
    voteOnSubIdea db userId subIdeaId value =
      ⟨200, some "removed",
        (db.votes.filter (fun w => !(voteKeySub userId subIdeaId w))).countP
          (fun w => w.subIdeaId == some subIdeaId && w.value == 1),
        (db.votes.filter (fun w => !(voteKeySub userId subIdeaId w))).countP
          (fun w => w.subIdeaId == some subIdeaId && w.value == -1),
        { db with votes := db.votes.filter (fun w => !(voteKeySub userId subIdeaId w)) }⟩ := by
  simp only [voteOnSubIdea, if_neg (not_not_intro hv), hs, Option.isNone_some,
    Bool.false_eq_true, if_false, hev, if_pos hsame]

/-- Branch lemma: the SubIdea voting route on an opposite-value resubmission
updates the vote in place. -/
theorem voteOnSubIdea_updated (db : DB) (userId subIdeaId : Nat) (value : Int)
    (ev : VoteRow) (hv : value = 1 ∨ value = -1) (s : SubIdea)
    (hs : findSubIdea db.subIdeas subIdeaId = some s)
    (hev : db.votes.find? (voteKeySub userId subIdeaId) = some ev)
    (hdiff : ¬ ev.value = value) :
    voteOnSubIdea db userId subIdeaId value =
      ⟨200, some "updated",
        (db.votes.map (fun w =>
          if voteKeySub userId subIdeaId w then { w with value := value } else w)).countP
          (fun w => w.subIdeaId == some subIdeaId && w.value == 1),
        (db.votes.map (fun w =>
          if voteKeySub userId subIdeaId w then { w with value := value } else w)).countP
          (fun w => w.subIdeaId == some subIdeaId && w.value == -1),
        { db with votes := db.votes.map (fun w =>
          if voteKeySub userId subIdeaId w then { w with value := value } else w) }⟩ := by
  simp only [voteOnSubIdea, if_neg (not_not_intro hv), hs, Option.isNone_some,
    Bool.false_eq_true, if_false, hev, if_neg hdiff]

/-- Branch lemma: the SubIdea voting route with no existing vote creates
one. -/
theorem voteOnSubIdea_created (db : DB) (userId subIdeaId : Nat) (value : Int)
    (hv : value = 1 ∨ value = -1) (s : SubIdea)
    (hs : findSubIdea db.subIdeas subIdeaId = some s)
    (hnone : db.votes.find? (voteKeySub userId subIdeaId) = none) :
    voteOnSubIdea db userId subIdeaId value =
      ⟨200, some "created",
        (db.votes ++ [newSubVote userId subIdeaId value]).countP
          (fun w => w.subIdeaId == some subIdeaId && w.value == 1),
        (db.votes ++ [newSubVote userId subIdeaId value]).countP
          (fun w => w.subIdeaId == some subIdeaId && w.value == -1),
        { db with votes := db.votes ++ [newSubVote userId subIdeaId value] }⟩ := by
  simp only [voteOnSubIdea, if_neg (not_not_intro hv), hs, Option.isNone_some,
    Bool.false_eq_true, if_false, hnone]

/-- Branch lemma: the Prototype voting route on a same-value resubmission
deletes the vote. -/
theorem voteOnPrototype_removed (db : DB) (userId prototypeId : Nat) (value : Int)
    (ev : VoteRow) (hv : value = 1 ∨ value = -1) (pr : Prototype)
    (hpr : findPrototype db.prototypes prototypeId = some pr)
    (hev : db.votes.find? (voteKeyProto userId prototypeId) = some ev)
    (hsame : ev.value = value) :
    voteOnPrototype db userId prototypeId value =
      ⟨200, some "removed",
        (db.votes.filter (fun w => !(voteKeyProto userId prototypeId w))).countP
          (fun w => w.prototypeId == some prototypeId && w.value == 1),
        (db.votes.filter (fun w => !(voteKeyProto userId prototypeId w))).countP
          (fun w => w.prototypeId == some prototypeId && w.value == -1),
        { db with votes := db.votes.filter (fun w => !(voteKeyProto userId prototypeId w)) }⟩ := by
  simp only [voteOnPrototype, if_neg (not_not_intro hv), hpr, Option.isNone_some,
    Bool.false_eq_true, if_false, hev, if_pos hsame]

/-- Branch lemma: the Prototype voting route on an opposite-value resubmission
updates the vote in place. -/
theorem voteOnPrototype_updated (db : DB) (userId prototypeId : Nat) (value : Int)
    (ev : VoteRow) (hv : value = 1 ∨ value = -1) (pr : Prototype)
    (hpr : findPrototype db.prototypes prototypeId = some pr)
    (hev : db.votes.find? (voteKeyProto userId prototypeId) = some ev)
    (hdiff : ¬ ev.value = value) :
    voteOnPrototype db userId prototypeId value =
      ⟨200, some "updated",
        (db.votes.map (fun w =>
          if voteKeyProto userId prototypeId w then { w with value := value } else w)).countP
          (fun w => w.prototypeId == some prototypeId && w.value == 1),
        (db.votes.map (fun w =>
          if voteKeyProto userId prototypeId w then { w with value := value } else w)).countP
          (fun w => w.prototypeId == some prototypeId && w.value == -1),
        { db with votes := db.votes.map (fun w =>
          if voteKeyProto userId prototypeId w then { w with value := value } else w) }⟩ := by
  simp only [voteOnPrototype, if_neg (not_not_intro hv), hpr, Option.isNone_some,
    Bool.false_eq_true, if_false, hev, if_neg hdiff]

/-- Branch lemma: the Prototype voting route with no existing vote creates
one. -/
theorem voteOnPrototype_created (db : DB) (userId prototypeId : Nat) (value : Int)
    (hv : value = 1 ∨ value = -1) (pr : Prototype)
    (hpr : findPrototype db.prototypes prototypeId = some pr)
    (hnone : db.votes.find? (voteKeyProto userId prototypeId) = none) :
    voteOnPrototype db userId prototypeId value =
      ⟨200, some "created",
        (db.votes ++ [newProtoVote userId prototypeId value]).countP
          (fun w => w.prototypeId == some prototypeId && w.value == 1),
        (db.votes ++ [newProtoVote userId prototypeId value]).countP
          (fun w => w.prototypeId == some prototypeId && w.value == -1),
        { db with votes := db.votes ++ [newProtoVote userId prototypeId value] }⟩ := by
  simp only [voteOnPrototype, if_neg (not_not_intro hv), hpr, Option.isNone_some,
    Bool.false_eq_true, if_false, hnone]

/-- C7: on both voting routes, for an existing target and a valid value,
resubmitting the user's existing value deletes the vote (`removed`, the pair
returns to the no-vote state, all other rows untouched), submitting the
opposite value replaces the existing vote's value (`updated`), submitting with
no existing vote creates one (`created`); the at-most-one-vote-per-(user,
target) invariant is preserved by every transition, and submitting the same
value twice from the no-vote state restores the vote table and the aggregate
counts that held before the first submission. -/
theorem c7_vote_state_machine (db : DB) (userId subIdeaId prototypeId : Nat)
    (value : Int) (hv : value = 1 ∨ value = -1) (s : SubIdea)
    (hs : findSubIdea db.subIdeas subIdeaId = some s) (pr : Prototype)
    (hpr : findPrototype db.prototypes prototypeId = some pr)
    (hinv : votesAtMostOne db.votes) :
    (∀ ev, db.votes.find? (voteKeySub userId subIdeaId) = some ev → ev.value = value →
      (voteOnSubIdea db userId subIdeaId value).action = some "removed" ∧
        (voteOnSubIdea db userId subIdeaId value).db.votes.find?
          (voteKeySub userId subIdeaId) = none ∧
        ∀ w ∈ db.votes, voteKeySub userId subIdeaId w = false →
          w ∈ (voteOnSubIdea db userId subIdeaId value).db.votes) ∧
      (∀ ev, db.votes.find? (voteKeySub userId subIdeaId) = some ev → ¬ ev.value = value →
        (voteOnSubIdea db userId subIdeaId value).action = some "updated" ∧
          (voteOnSubIdea db userId subIdeaId value).db.votes.find?
            (voteKeySub userId subIdeaId) = some { ev with value := value }) ∧
      (db.votes.find? (voteKeySub userId subIdeaId) = none →
        (voteOnSubIdea db userId subIdeaId value).action = some "created" ∧
          (voteOnSubIdea db userId subIdeaId value).db.votes.find?
            (voteKeySub userId subIdeaId) = some (newSubVote userId subIdeaId value)) ∧
      votesAtMostOne (voteOnSubIdea db userId subIdeaId value).db.votes ∧
      (db.votes.find? (voteKeySub userId subIdeaId) = none →
        (voteOnSubIdea (voteOnSubIdea db userId subIdeaId value).db
            userId subIdeaId value).action = some "removed" ∧
          (voteOnSubIdea (voteOnSubIdea db userId subIdeaId value).db
              userId subIdeaId value).db.votes = db.votes ∧
          (voteOnSubIdea (voteOnSubIdea db userId subIdeaId value).db
              userId subIdeaId value).upvotes =
            db.votes.countP (fun w => w.subIdeaId == some subIdeaId && w.value == 1) ∧
          (voteOnSubIdea (voteOnSubIdea db userId subIdeaId value).db
              userId subIdeaId value).downvotes =
            db.votes.countP (fun w => w.subIdeaId == some subIdeaId && w.value == -1)) ∧
      (∀ ev, db.votes.find? (voteKeyProto userId prototypeId) = some ev → ev.value = value →
        (voteOnPrototype db userId prototypeId value).action = some "removed" ∧
          (voteOnPrototype db userId prototypeId value).db.votes.find?
            (voteKeyProto userId prototypeId) = none ∧
          ∀ w ∈ db.votes, voteKeyProto userId prototypeId w = false →
            w ∈ (voteOnPrototype db userId prototypeId value).db.votes) ∧
      (∀ ev, db.votes.find? (voteKeyProto userId prototypeId) = some ev → ¬ ev.value = value →
        (voteOnPrototype db userId prototypeId value).action = some "updated" ∧
          (voteOnPrototype db userId prototypeId value).db.votes.find?
            (voteKeyProto userId prototypeId) = some { ev with value := value }) ∧
      (db.votes.find? (voteKeyProto userId prototypeId) = none →
        (voteOnPrototype db userId prototypeId value).action = some "created" ∧
          (voteOnPrototype db userId prototypeId value).db.votes.find?
            (voteKeyProto userId prototypeId) = some (newProtoVote userId prototypeId value)) ∧
      votesAtMostOne (voteOnPrototype db userId prototypeId value).db.votes ∧
      (db.votes.find? (voteKeyProto userId prototypeId) = none →
        (voteOnPrototype (voteOnPrototype db userId prototypeId value).db
            userId prototypeId value).action = some "removed" ∧
          (voteOnPrototype (voteOnPrototype db userId prototypeId value).db
              userId prototypeId value).db.votes = db.votes ∧
          (voteOnPrototype (voteOnPrototype db userId prototypeId value).db
              userId prototypeId value).upvotes =
            db.votes.countP (fun w => w.prototypeId == some prototypeId && w.value == 1) ∧
          (voteOnPrototype (voteOnPrototype db userId prototypeId value).db
              userId prototypeId value).downvotes =
            db.votes.countP (fun w => w.prototypeId == some prototypeId && w.value == -1)) := by
  refine ⟨?_, ?_, ?_, ?_, ?_, ?_, ?_, ?_, ?_, ?_⟩
  · intro ev hev hsame
    rw [voteOnSubIdea_removed db userId subIdeaId value ev hv s hs hev hsame]
    refine ⟨rfl, find?_filter_not_self _ _, ?_⟩
    intro w hw hkw
    exact List.mem_filter.mpr ⟨hw, by simp [hkw]⟩
  · intro ev hev hdiff
    rw [voteOnSubIdea_updated db userId subIdeaId value ev hv s hs hev hdiff]
    exact ⟨rfl, find?_map_update _ _ _ (fun w => rfl) hev⟩
  · intro hnone
    rw [voteOnSubIdea_created db userId subIdeaId value hv s hs hnone]
    refine ⟨rfl, ?_⟩
    rw [find?_append_of_none hnone]
    exact List.find?_cons_of_pos _ (by simp [voteKeySub, newSubVote])
  · cases hf : db.votes.find? (voteKeySub userId subIdeaId) with
    | none =>
      rw [voteOnSubIdea_created db userId subIdeaId value hv s hs hf]
      refine votesAtMostOne_append_new _ _ hinv ?_
      intro w hw
      have hnk := List.find?_eq_none.mp hf w hw
      constructor
      · rintro ⟨h1, h2, h3⟩
        exact hnk (by simp [voteKeySub, h1, newSubVote] at h3 ⊢; simp [h1, h3])
      · rintro ⟨h1, h2, h3⟩
        rw [show (newSubVote userId subIdeaId value).prototypeId = none from rfl] at h3
        rw [h3] at h2
        simp at h2
    | some ev =>
      by_cases hsame : ev.value = value
      · rw [voteOnSubIdea_removed db userId subIdeaId value ev hv s hs hf hsame]
        exact votesAtMostOne_filter _ _ hinv
      · rw [voteOnSubIdea_updated db userId subIdeaId value ev hv s hs hf hsame]
        exact votesAtMostOne_map _ _ _ hinv
  · intro hnone
    have hkeynv : voteKeySub userId subIdeaId (newSubVote userId subIdeaId value) = true := by
      simp [voteKeySub, newSubVote]
    have hfind1 : (db.votes ++ [newSubVote userId subIdeaId value]).find?
        (voteKeySub userId subIdeaId) = some (newSubVote userId subIdeaId value) := by
      rw [find?_append_of_none hnone]
      exact List.find?_cons_of_pos _ hkeynv
    have hvotes2 : (db.votes ++ [newSubVote userId subIdeaId value]).filter
        (fun w => !(voteKeySub userId subIdeaId w)) = db.votes := by
      rw [List.filter_append, filter_not_key_eq_self hnone]
      simp [hkeynv]
    have h1 := voteOnSubIdea_created db userId subIdeaId value hv s hs hnone
    have hdb1 : (voteOnSubIdea db userId subIdeaId value).db =
        { db with votes := db.votes ++ [newSubVote userId subIdeaId value] } := by rw [h1]
    have h2 := voteOnSubIdea_removed
      { db with votes := db.votes ++ [newSubVote userId subIdeaId value] }
      userId subIdeaId value (newSubVote userId subIdeaId value) hv s hs hfind1 rfl
    rw [hdb1, h2]
    simp [hvotes2]
  · intro ev hev hsame
    rw [voteOnPrototype_removed db userId prototypeId value ev hv pr hpr hev hsame]
    refine ⟨rfl, find?_filter_not_self _ _, ?_⟩
    intro w hw hkw
    exact List.mem_filter.mpr ⟨hw, by simp [hkw]⟩
  · intro ev hev hdiff
    rw [voteOnPrototype_updated db userId prototypeId value ev hv pr hpr hev hdiff]
    exact ⟨rfl, find?_map_update _ _ _ (fun w => rfl) hev⟩
  · intro hnone
    rw [voteOnPrototype_created db userId prototypeId value hv pr hpr hnone]
    refine ⟨rfl, ?_⟩
    rw [find?_append_of_none hnone]
    exact List.find?_cons_of_pos _ (by simp [voteKeyProto, newProtoVote])
  · cases hf : db.votes.find? (voteKeyProto userId prototypeId) with
    | none =>
      rw [voteOnPrototype_created db userId prototypeId value hv pr hpr hf]
      refine votesAtMostOne_append_new _ _ hinv ?_
      intro w hw
      have hnk := List.find?_eq_none.mp hf w hw
      constructor
      · rintro ⟨h1, h2, h3⟩
        rw [show (newProtoVote userId prototypeId value).subIdeaId = none from rfl] at h3
        rw [h3] at h2
        simp at h2
      · rintro ⟨h1, h2, h3⟩
        exact hnk (by simp [voteKeyProto, h1, newProtoVote] at h3 ⊢; simp [h1, h3])
    | some ev =>
      by_cases hsame : ev.value = value
      · rw [voteOnPrototype_removed db userId prototypeId value ev hv pr hpr hf hsame]
        exact votesAtMostOne_filter _ _ hinv
      · rw [voteOnPrototype_updated db userId prototypeId value ev hv pr hpr hf hsame]
        exact votesAtMostOne_map _ _ _ hinv
  · intro hnone
    have hkeynv : voteKeyProto userId prototypeId (newProtoVote userId prototypeId value) = true := by
      simp [voteKeyProto, newProtoVote]
    have hfind1 : (db.votes ++ [newProtoVote userId prototypeId value]).find?
        (voteKeyProto userId prototypeId) = some (newProtoVote userId prototypeId value) := by
      rw [find?_append_of_none hnone]
      exact List.find?_cons_of_pos _ hkeynv
    have hvotes2 : (db.votes ++ [newProtoVote userId prototypeId value]).filter
        (fun w => !(voteKeyProto userId prototypeId w)) = db.votes := by
      rw [List.filter_append, filter_not_key_eq_self hnone]
      simp [hkeynv]
    have h1 := voteOnPrototype_created db userId prototypeId value hv pr hpr hnone
    have hdb1 : (voteOnPrototype db userId prototypeId value).db =
        { db with votes := db.votes ++ [newProtoVote userId prototypeId value] } := by rw [h1]
    have h2 := voteOnPrototype_removed
      { db with votes := db.votes ++ [newProtoVote userId prototypeId value] }
      userId prototypeId value (newProtoVote userId prototypeId value) hv pr hpr hfind1 rfl
    rw [hdb1, h2]
    simp [hvotes2]

/-- C7 witness: the state-machine theorem applied to user 1, SubIdea 20 and
Prototype 40 of the concrete database with an upvote. -/
theorem c7_witness :
    (((1 : Int) = 1 ∨ (1 : Int) = -1) ∧
      findSubIdea exDB.subIdeas 20 =
        some ⟨20, 2, 10, SubIdeaStatus.OPEN_FOR_PROTOTYPING, "widget"⟩ ∧
      findPrototype exDB.prototypes 40 =
        some ⟨40, 2, 30, "proto", "a long description", "http://img.example/x", none⟩ ∧
      votesAtMostOne exDB.votes) ∧
    (
      (∀ ev, exDB.votes.find? (voteKeySub 1 20) = some ev → ev.value = (1 : Int) →
        (voteOnSubIdea exDB 1 20 (1 : Int)).action = some "removed" ∧
          (voteOnSubIdea exDB 1 20 (1 : Int)).db.votes.find?
            (voteKeySub 1 20) = none ∧
          ∀ w ∈ exDB.votes, voteKeySub 1 20 w = false →
            w ∈ (voteOnSubIdea exDB 1 20 (1 : Int)).db.votes) ∧
        (∀ ev, exDB.votes.find? (voteKeySub 1 20) = some ev → ¬ ev.value = (1 : Int) →
          (voteOnSubIdea exDB 1 20 (1 : Int)).action = some "updated" ∧
            (voteOnSubIdea exDB 1 20 (1 : Int)).db.votes.find?
              (voteKeySub 1 20) = some { ev with value := (1 : Int) }) ∧
        (exDB.votes.find? (voteKeySub 1 20) = none →
          (voteOnSubIdea exDB 1 20 (1 : Int)).action = some "created" ∧
            (voteOnSubIdea exDB 1 20 (1 : Int)).db.votes.find?
              (voteKeySub 1 20) = some (newSubVote 1 20 (1 : Int))) ∧
        votesAtMostOne (voteOnSubIdea exDB 1 20 (1 : Int)).db.votes ∧
        (exDB.votes.find? (voteKeySub 1 20) = none →
          (voteOnSubIdea (voteOnSubIdea exDB 1 20 (1 : Int)).db
              1 20 (1 : Int)).action = some "removed" ∧
            (voteOnSubIdea (voteOnSubIdea exDB 1 20 (1 : Int)).db
                1 20 (1 : Int)).db.votes = exDB.votes ∧
            (voteOnSubIdea (voteOnSubIdea exDB 1 20 (1 : Int)).db
                1 20 (1 : Int)).upvotes =
              exDB.votes.countP (fun w => w.subIdeaId == some 20 && w.value == 1) ∧
            (voteOnSubIdea (voteOnSubIdea exDB 1 20 (1 : Int)).db
                1 20 (1 : Int)).downvotes =
              exDB.votes.countP (fun w => w.subIdeaId == some 20 && w.value == -1)) ∧
        (∀ ev, exDB.votes.find? (voteKeyProto 1 40) = some ev → ev.value = (1 : Int) →
          (voteOnPrototype exDB 1 40 (1 : Int)).action = some "removed" ∧
            (voteOnPrototype exDB 1 40 (1 : Int)).db.votes.find?
              (voteKeyProto 1 40) = none ∧
            ∀ w ∈ exDB.votes, voteKeyProto 1 40 w = false →
              w ∈ (voteOnPrototype exDB 1 40 (1 : Int)).db.votes) ∧
        (∀ ev, exDB.votes.find? (voteKeyProto 1 40) = some ev → ¬ ev.value = (1 : Int) →
          (voteOnPrototype exDB 1 40 (1 : Int)).action = some "updated" ∧
            (voteOnPrototype exDB 1 40 (1 : Int)).db.votes.find?
              (voteKeyProto 1 40) = some { ev with value := (1 : Int) }) ∧
        (exDB.votes.find? (voteKeyProto 1 40) = none →
          (voteOnPrototype exDB 1 40 (1 : Int)).action = some "created" ∧
            (voteOnPrototype exDB 1 40 (1 : Int)).db.votes.find?
              (voteKeyProto 1 40) = some (newProtoVote 1 40 (1 : Int))) ∧
        votesAtMostOne (voteOnPrototype exDB 1 40 (1 : Int)).db.votes ∧
        (exDB.votes.find? (voteKeyProto 1 40) = none →
          (voteOnPrototype (voteOnPrototype exDB 1 40 (1 : Int)).db
              1 40 (1 : Int)).action = some "removed" ∧
            (voteOnPrototype (voteOnPrototype exDB 1 40 (1 : Int)).db
                1 40 (1 : Int)).db.votes = exDB.votes ∧
            (voteOnPrototype (voteOnPrototype exDB 1 40 (1 : Int)).db
                1 40 (1 : Int)).upvotes =
              exDB.votes.countP (fun w => w.prototypeId == some 40 && w.value == 1) ∧
            (voteOnPrototype (voteOnPrototype exDB 1 40 (1 : Int)).db
                1 40 (1 : Int)).downvotes =
              exDB.votes.countP (fun w => w.prototypeId == some 40 && w.value == -1))) :=
  ⟨⟨by decide, by decide, by decide, by decide⟩,
    c7_vote_state_machine exDB 1 20 40 (1 : Int) (by decide)
      ⟨20, 2, 10, SubIdeaStatus.OPEN_FOR_PROTOTYPING, "widget"⟩ (by decide)
      ⟨40, 2, 30, "proto", "a long description", "http://img.example/x", none⟩ (by decide)
      (by decide)⟩

/-- Auxiliary: a successful `find?` is stable under appending rows. -/
theorem find?_append_left {α : Type} {p : α → Bool} {l₁ : List α} {a : α}
    (l₂ : List α) (h : l₁.find? p = some a) : (l₁ ++ l₂).find? p = some a := by
  induction l₁ with
  | nil => cases h
  | cons x xs ih =>
    by_cases hx : p x = true
    · rw [List.find?_cons_of_pos _ hx] at h
      rw [List.cons_append, List.find?_cons_of_pos _ hx]
      exact h
    · rw [List.find?_cons_of_neg _ (by simpa using hx)] at h
      rw [List.cons_append, List.find?_cons_of_neg _ (by simpa using hx)]
      exact ih h

/-- Auxiliary: a `find?` hit that the filter keeps is still the first hit
after filtering. -/
theorem find?_filter_keep {α : Type} {p keep : α → Bool} {l : List α} {a : α}
    (h : l.find? p = some a) (hk : keep a = true) :
    (l.filter keep).find? p = some a := by
  induction l with
  | nil => cases h
  | cons x xs ih =>
    rw [List.filter_cons]
    by_cases hx : p x = true
    · rw [List.find?_cons_of_pos _ hx] at h
      injection h with h
      subst h
      rw [if_pos hk]
      exact List.find?_cons_of_pos _ hx
    · rw [List.find?_cons_of_neg _ (by simpa using hx)] at h
      by_cases hkx : keep x = true
      · rw [if_pos hkx, List.find?_cons_of_neg _ (by simpa using hx)]
        exact ih h
      · rw [if_neg hkx]
        exact ih h

/-- Auxiliary: a missing key stays missing after filtering. -/
theorem find?_filter_of_none {α : Type} {p : α → Bool} (keep : α → Bool) {l : List α}
    (h : l.find? p = none) : (l.filter keep).find? p = none := by
  rw [List.find?_eq_none] at h ⊢
  intro x hx
  exact h x (List.mem_filter.mp hx).1

/-- Auxiliary: `countP` splits over any Boolean condition. -/
theorem countP_split {α : Type} (p q : α → Bool) (l : List α) :
    l.countP p = l.countP (fun x => p x && q x) + l.countP (fun x => p x && !(q x)) := by
  induction l with
  | nil => rfl
  | cons x xs ih =>
    rw [List.countP_cons, List.countP_cons, List.countP_cons, ih]
    cases hp : p x <;> cases hq : q x <;> simp [hp, hq] <;> omega

/-- Auxiliary: with pairwise-distinct keys, the conjunctive count over a found
key picks out exactly the found row. -/
theorem countP_found_unique {α : Type} (f : α → Nat) (pred : α → Bool)
    {l : List α} {i : Nat} {a : α}
    (hfind : l.find? (fun x => f x == i) = some a) (h : (l.map f).Nodup) :
    l.countP (fun x => pred x && (f x == i)) = if pred a then 1 else 0 := by
  induction l with
  | nil => cases hfind
  | cons x xs ih =>
    rw [List.map_cons, List.nodup_cons] at h
    rw [List.countP_cons]
    by_cases hx : (f x == i) = true
    · rw [@List.find?_cons_of_pos _ (fun y => f y == i) x xs hx] at hfind
      injection hfind with hfind
      subst hfind
      have hzero : xs.countP (fun y => pred y && (f y == i)) = 0 := by
        rw [List.countP_eq_zero]
        intro y hy hyc
        rw [Bool.and_eq_true] at hyc
        apply h.1
        rw [List.mem_map]
        refine ⟨y, hy, ?_⟩
        have h1 : f y = i := by simpa using hyc.2
        have h2 : f x = i := by simpa using hx
        rw [h1, h2]
      rw [hzero]
      simp [hx]
    · rw [@List.find?_cons_of_neg _ (fun y => f y == i) x xs (by simpa using hx)] at hfind
      rw [ih hfind h.2]
      simp [hx]

/-- Shape lemma: appending a Proposal whose SubIdea chain resolves to idea
`iid`, with `totalProposals` incremented on exactly that idea, preserves the
counter invariant (prototype foreign keys must be valid so that the new
proposal row cannot capture a dangling prototype reference). -/
theorem countersConsistent_addProposal (db db' : DB) (newP : Proposal) (iid : Nat)
    (hps : db'.proposals = db.proposals ++ [newP])
    (hsubs : db'.subIdeas = db.subIdeas)
    (hprs : db'.prototypes = db.prototypes)
    (hideas : db'.ideas = bumpTotalProposals db.ideas iid 1)
    (hchain : ideaIdOfProposal db.subIdeas newP = some iid)
    (hfk : prototypeFKsValid db) (hcons : countersConsistent db) :
    countersConsistent db' := by
  have hcount : ∀ i, proposalCountFor db' i =
      proposalCountFor db i + (if iid == i then 1 else 0) := by
    intro i
    unfold proposalCountFor
    rw [hps, hsubs, List.countP_append]
    congr 1
    rw [List.countP_cons, List.countP_nil]
    simp [hchain]
  have hcount2 : ∀ i, prototypeCountFor db' i = prototypeCountFor db i := by
    intro i
    unfold prototypeCountFor
    rw [hprs, hsubs, hps]
    refine List.countP_congr ?_
    intro pr hpr
    have hq := hfk pr hpr
    rw [Option.isSome_iff_exists] at hq
    obtain ⟨q, hq⟩ := hq
    have hstable : findProposal (db.proposals ++ [newP]) pr.proposalId = some q :=
      find?_append_left _ hq
    unfold ideaIdOfPrototype
    rw [hstable, hq]
  intro x hx
  rw [hideas, bumpTotalProposals, List.mem_map] at hx
  obtain ⟨x0, hx0, rfl⟩ := hx
  obtain ⟨hc1, hc2⟩ := hcons x0 hx0
  have hid : (if x0.id == iid then
      { x0 with totalProposals := x0.totalProposals + 1 } else x0).id = x0.id := by
    split <;> rfl
  have hpp : (if x0.id == iid then
      { x0 with totalProposals := x0.totalProposals + 1 } else x0).totalPrototypes =
      x0.totalPrototypes := by
    split <;> rfl
  constructor
  · rw [hid, hcount x0.id]
    by_cases hb : (x0.id == iid) = true
    · rw [if_pos hb]
      have hbi : x0.id = iid := by simpa using hb
      rw [if_pos (by simpa using hbi.symm)]
      show x0.totalProposals + 1 = ((proposalCountFor db x0.id + 1 : Nat) : Int)
      rw [hc1]
      push_cast
      ring
    · rw [if_neg hb]
      have hbi : ¬ x0.id = iid := by simpa using hb
      rw [if_neg (by simpa using fun hn => hbi (by rw [hn]))]
      show x0.totalProposals = ((proposalCountFor db x0.id + 0 : Nat) : Int)
      rw [hc1]
      push_cast
      ring
  · rw [hid, hcount2 x0.id, hpp]
    exact hc2

/-- Shape lemma: appending a Prototype whose Proposal/SubIdea chain resolves
to idea `iid`, with `totalPrototypes` incremented on exactly that idea,
preserves the counter invariant. -/
theorem countersConsistent_addPrototype (db db' : DB) (newPr : Prototype) (iid : Nat)
    (hprs : db'.prototypes = db.prototypes ++ [newPr])
    (hps : db'.proposals = db.proposals)
    (hsubs : db'.subIdeas = db.subIdeas)
    (hideas : db'.ideas = bumpTotalPrototypes db.ideas iid 1)
    (hchain : ideaIdOfPrototype db.proposals db.subIdeas newPr = some iid)
    (hcons : countersConsistent db) :
    countersConsistent db' := by
  have hcount : ∀ i, prototypeCountFor db' i =
      prototypeCountFor db i + (if iid == i then 1 else 0) := by
    intro i
    unfold prototypeCountFor
    rw [hprs, hps, hsubs, List.countP_append]
    congr 1
    rw [List.countP_cons, List.countP_nil]
    simp [hchain]
  have hcount1 : ∀ i, proposalCountFor db' i = proposalCountFor db i := by
    intro i
    unfold proposalCountFor
    rw [hps, hsubs]
  intro x hx
  rw [hideas, bumpTotalPrototypes, List.mem_map] at hx
  obtain ⟨x0, hx0, rfl⟩ := hx
  obtain ⟨hc1, hc2⟩ := hcons x0 hx0
  have hid : (if x0.id == iid then
      { x0 with totalPrototypes := x0.totalPrototypes + 1 } else x0).id = x0.id := by
    split <;> rfl
  have hpp : (if x0.id == iid then
      { x0 with totalPrototypes := x0.totalPrototypes + 1 } else x0).totalProposals =
      x0.totalProposals := by
    split <;> rfl
  constructor
  · rw [hid, hcount1 x0.id, hpp]
    exact hc1
  · rw [hid, hcount x0.id]
    by_cases hb : (x0.id == iid) = true
    · rw [if_pos hb]
      have hbi : x0.id = iid := by simpa using hb
      rw [if_pos (by simpa using hbi.symm)]
      show x0.totalPrototypes + 1 = ((prototypeCountFor db x0.id + 1 : Nat) : Int)
      rw [hc2]
      push_cast
      ring
    · rw [if_neg hb]
      have hbi : ¬ x0.id = iid := by simpa using hb
      rw [if_neg (by simpa using fun hn => hbi (by rw [hn]))]
      show x0.totalPrototypes = ((prototypeCountFor db x0.id + 0 : Nat) : Int)
      rw [hc2]
      push_cast
      ring

/-- Shape lemma: deleting the Proposal found at `pid` (whose chain resolves to
idea `iid`) and decrementing that idea's `totalProposals` preserves the counter
invariant, provided no Prototype references the deleted Proposal (otherwise the
orphaned prototypes would fall out of the prototype count with no counter
update). -/
theorem countersConsistent_removeProposal (db db' : DB) (pid : Nat) (p0 : Proposal)
    (iid : Nat) (hfound : findProposal db.proposals pid = some p0)
    (hnodup : (db.proposals.map Proposal.id).Nodup)
    (hchain : ideaIdOfProposal db.subIdeas p0 = some iid)
    (hnoproto : ∀ pr ∈ db.prototypes, ¬ pr.proposalId = pid)
    (hps : db'.proposals = db.proposals.filter (fun q => !(q.id == pid)))
    (hsubs : db'.subIdeas = db.subIdeas)
    (hprs : db'.prototypes = db.prototypes)
    (hideas : db'.ideas = bumpTotalProposals db.ideas iid (-1))
    (hcons : countersConsistent db) :
    countersConsistent db' := by
  have hcount : ∀ i, proposalCountFor db i =
      proposalCountFor db' i + (if iid == i then 1 else 0) := by
    intro i
    have hsplit := countP_split (fun p => ideaIdOfProposal db.subIdeas p == some i)
      (fun q => q.id == pid) db.proposals
    have huniq : db.proposals.countP
        (fun x => (ideaIdOfProposal db.subIdeas x == some i) && (x.id == pid)) =
        if ideaIdOfProposal db.subIdeas p0 == some i then 1 else 0 :=
      countP_found_unique Proposal.id _ hfound hnodup
    have hite : (if ideaIdOfProposal db.subIdeas p0 == some i then (1 : Nat) else 0) =
        if iid == i then 1 else 0 := by
      rw [hchain]
      by_cases hii : iid = i
      · simp [hii]
      · simp [hii]
    unfold proposalCountFor
    rw [hps, hsubs, List.countP_filter, hsplit, huniq, hite]
    omega
  have hcount2 : ∀ i, prototypeCountFor db' i = prototypeCountFor db i := by
    intro i
    unfold prototypeCountFor
    rw [hprs, hsubs, hps]
    refine List.countP_congr ?_
    intro pr hpr
    have hne := hnoproto pr hpr
    have hstable : findProposal (db.proposals.filter (fun q => !(q.id == pid)))
        pr.proposalId = findProposal db.proposals pr.proposalId := by
      cases hq : findProposal db.proposals pr.proposalId with
      | none => exact find?_filter_of_none _ hq
      | some q =>
        refine find?_filter_keep hq ?_
        have hqid : q.id = pr.proposalId := by simpa using List.find?_some hq
        simp [hqid, hne]
    unfold ideaIdOfPrototype
    rw [hstable]
  intro x hx
  rw [hideas, bumpTotalProposals, List.mem_map] at hx
  obtain ⟨x0, hx0, rfl⟩ := hx
  obtain ⟨hc1, hc2⟩ := hcons x0 hx0
  have hid : (if x0.id == iid then
      { x0 with totalProposals := x0.totalProposals + (-1) } else x0).id = x0.id := by
    split <;> rfl
  have hpp : (if x0.id == iid then
      { x0 with totalProposals := x0.totalProposals + (-1) } else x0).totalPrototypes =
      x0.totalPrototypes := by
    split <;> rfl
  constructor
  · rw [hid]
    have hcnt := hcount x0.id
    by_cases hb : (x0.id == iid) = true
    · rw [if_pos hb]
      have hbi : x0.id = iid := by simpa using hb
      rw [if_pos (by simpa using hbi.symm)] at hcnt
      show x0.totalProposals + (-1) = ((proposalCountFor db' x0.id : Nat) : Int)
      rw [hc1] at *
      omega
    · rw [if_neg hb]
      have hbi : ¬ x0.id = iid := by simpa using hb
      rw [if_neg (by simpa using fun hn => hbi (by rw [hn]))] at hcnt
      show x0.totalProposals = ((proposalCountFor db' x0.id : Nat) : Int)
      rw [hc1] at *
      omega
  · rw [hid, hcount2 x0.id, hpp]
    exact hc2

/-- Shape lemma: deleting the Prototype found at `prid` (whose chain resolves
to idea `iid`) and decrementing that idea's `totalPrototypes` preserves the
counter invariant. -/
theorem countersConsistent_removePrototype (db db' : DB) (prid : Nat) (pr0 : Prototype)
    (iid : Nat) (hfound : findPrototype db.prototypes prid = some pr0)
    (hnodup : (db.prototypes.map Prototype.id).Nodup)
    (hchain : ideaIdOfPrototype db.proposals db.subIdeas pr0 = some iid)
    (hprs : db'.prototypes = db.prototypes.filter (fun q => !(q.id == prid)))
    (hps : db'.proposals = db.proposals)
    (hsubs : db'.subIdeas = db.subIdeas)
    (hideas : db'.ideas = bumpTotalPrototypes db.ideas iid (-1))
    (hcons : countersConsistent db) :
    countersConsistent db' := by
  have hcount : ∀ i, prototypeCountFor db i =
      prototypeCountFor db' i + (if iid == i then 1 else 0) := by
    intro i
    have hsplit := countP_split
      (fun pr => ideaIdOfPrototype db.proposals db.subIdeas pr == some i)
      (fun q => q.id == prid) db.prototypes
    have huniq : db.prototypes.countP
        (fun x => (ideaIdOfPrototype db.proposals db.subIdeas x == some i) &&
          (x.id == prid)) =
        if ideaIdOfPrototype db.proposals db.subIdeas pr0 == some i then 1 else 0 :=
      countP_found_unique Prototype.id _ hfound hnodup
    have hite : (if ideaIdOfPrototype db.proposals db.subIdeas pr0 == some i
        then (1 : Nat) else 0) = if iid == i then 1 else 0 := by
      rw [hchain]
      by_cases hii : iid = i
      · simp [hii]
      · simp [hii]
    unfold prototypeCountFor
    rw [hprs, hps, hsubs, List.countP_filter, hsplit, huniq, hite]
    omega
  have hcount1 : ∀ i, proposalCountFor db' i = proposalCountFor db i := by
    intro i
    unfold proposalCountFor
    rw [hps, hsubs]
  intro x hx
  rw [hideas, bumpTotalPrototypes, List.mem_map] at hx
  obtain ⟨x0, hx0, rfl⟩ := hx
  obtain ⟨hc1, hc2⟩ := hcons x0 hx0
  have hid : (if x0.id == iid then
      { x0 with totalPrototypes := x0.totalPrototypes + (-1) } else x0).id = x0.id := by
    split <;> rfl
  have hpp : (if x0.id == iid then
      { x0 with totalPrototypes := x0.totalPrototypes + (-1) } else x0).totalProposals =
      x0.totalProposals := by
    split <;> rfl
  constructor
  · rw [hid, hcount1 x0.id, hpp]
    exact hc1
  · rw [hid]
    have hcnt := hcount x0.id
    by_cases hb : (x0.id == iid) = true
    · rw [if_pos hb]
      have hbi : x0.id = iid := by simpa using hb
      rw [if_pos (by simpa using hbi.symm)] at hcnt
      show x0.totalPrototypes + (-1) = ((prototypeCountFor db' x0.id : Nat) : Int)
      rw [hc2] at *
      omega
    · rw [if_neg hb]
      have hbi : ¬ x0.id = iid := by simpa using hb
      rw [if_neg (by simpa using fun hn => hbi (by rw [hn]))] at hcnt
      show x0.totalPrototypes = ((prototypeCountFor db' x0.id : Nat) : Int)
      rw [hc2] at *
      omega

/-- Shape lemma: the cascade delete of idea `I` removes every descendant
SubIdea, Proposal and Prototype; the surviving ideas keep their counters and
their descendant counts, so the counter invariant is preserved. -/
theorem countersConsistent_cascade (db db' : DB) (I : Nat)
    (hsubs : db'.subIdeas = db.subIdeas.filter (fun s => !(s.ideaId == I)))
    (hps : db'.proposals = db.proposals.filter
      (fun p => !(ideaIdOfProposal db.subIdeas p == some I)))
    (hprs : db'.prototypes = db.prototypes.filter
      (fun pr => !(ideaIdOfPrototype db.proposals db.subIdeas pr == some I)))
    (hideas : db'.ideas = db.ideas.filter (fun x => !(x.id == I)))
    (hcons : countersConsistent db) :
    countersConsistent db' := by
  intro x hx
  rw [hideas, List.mem_filter] at hx
  obtain ⟨hx0, hxI⟩ := hx
  have hxI' : ¬ x.id = I := by simpa using hxI
  obtain ⟨hc1, hc2⟩ := hcons x hx0
  have hpc : proposalCountFor db' x.id = proposalCountFor db x.id := by
    unfold proposalCountFor
    rw [hps, hsubs, List.countP_filter]
    refine List.countP_congr ?_
    intro p hp
    cases hq : findSubIdea db.subIdeas p.subIdeaId with
    | none =>
      have h1 : findSubIdea (db.subIdeas.filter (fun s => !(s.ideaId == I)))
          p.subIdeaId = none := find?_filter_of_none _ hq
      simp [ideaIdOfProposal, h1, hq]
    | some s0 =>
      by_cases hsI : s0.ideaId = I
      · simp only [ideaIdOfProposal, hq, Option.map_some']
        constructor
        · intro hcon
          rw [Bool.and_eq_true] at hcon
          have hf := hcon.2
          simp [hsI] at hf
        · intro hcon
          have hcx : s0.ideaId = x.id := by simpa using hcon
          exact absurd (hsI.symm.trans hcx).symm hxI'
      · have hkeep : (fun s => !(s.ideaId == I)) s0 = true := by simp [hsI]
        have h1 : findSubIdea (db.subIdeas.filter (fun s => !(s.ideaId == I)))
            p.subIdeaId = some s0 := find?_filter_keep hq hkeep
        simp [ideaIdOfProposal, h1, hq, hsI]
  have hpc2 : prototypeCountFor db' x.id = prototypeCountFor db x.id := by
    unfold prototypeCountFor
    rw [hprs, hps, hsubs, List.countP_filter]
    refine List.countP_congr ?_
    intro pr hpr
    cases hq : findProposal db.proposals pr.proposalId with
    | none =>
      have h1 : findProposal (db.proposals.filter
          (fun p => !(ideaIdOfProposal db.subIdeas p == some I))) pr.proposalId = none :=
        find?_filter_of_none _ hq
      simp only [ideaIdOfPrototype]
      rw [h1, hq]
      simp
    | some q =>
      cases hq2 : findSubIdea db.subIdeas q.subIdeaId with
      | none =>
        have hkeepq : (fun p => !(ideaIdOfProposal db.subIdeas p == some I)) q = true := by
          simp [ideaIdOfProposal, hq2]
        have h1 : findProposal (db.proposals.filter
            (fun p => !(ideaIdOfProposal db.subIdeas p == some I))) pr.proposalId = some q :=
          find?_filter_keep hq hkeepq
        have h2 : findSubIdea (db.subIdeas.filter (fun s => !(s.ideaId == I)))
            q.subIdeaId = none := find?_filter_of_none _ hq2
        simp only [ideaIdOfPrototype]
        rw [h1, hq]
        simp [ideaIdOfProposal, h2, hq2]
      | some s0 =>
        by_cases hsI : s0.ideaId = I
        · have hchainq : ((findProposal db.proposals pr.proposalId).bind
              (fun p => ideaIdOfProposal db.subIdeas p)) = some I := by
            rw [hq]
            simp [ideaIdOfProposal, hq2, hsI]
          simp only [ideaIdOfPrototype]
          rw [hchainq]
          constructor
          · intro hcon
            rw [Bool.and_eq_true] at hcon
            have hf := hcon.2
            simp at hf
          · intro hcon
            exact absurd (show I = x.id by simpa using hcon).symm hxI'
        · have hkeeps : (fun s => !(s.ideaId == I)) s0 = true := by simp [hsI]
          have h2 : findSubIdea (db.subIdeas.filter (fun s => !(s.ideaId == I)))
              q.subIdeaId = some s0 := find?_filter_keep hq2 hkeeps
          have hkeepq : (fun p => !(ideaIdOfProposal db.subIdeas p == some I)) q = true := by
            simp [ideaIdOfProposal, hq2, hsI]
          have h1 : findProposal (db.proposals.filter
              (fun p => !(ideaIdOfProposal db.subIdeas p == some I))) pr.proposalId = some q :=
            find?_filter_keep hq hkeepq
          simp only [ideaIdOfPrototype]
          rw [h1, hq]
          simp [ideaIdOfProposal, h2, hq2, hsI]
  exact ⟨by rw [hpc]; exact hc1, by rw [hpc2]; exact hc2⟩

/-- The transactional proposal-submit route preserves the counter invariant. -/
theorem submitProposal_consistent (db : DB) (authorId subIdeaId : Nat)
    (title description : String) (presentationUrl : Option String)
    (hfk : prototypeFKsValid db) (hcons : countersConsistent db) :
    countersConsistent
      (submitProposal db authorId subIdeaId title description presentationUrl).db := by
  unfold submitProposal
  by_cases h0 : title = "" ∨ description = ""
  · rw [if_pos h0]
    exact hcons
  rw [if_neg h0]
  cases hsub : findSubIdea db.subIdeas subIdeaId with
  | none => exact hcons
  | some s =>
    dsimp only
    by_cases h1 : (findUser db.users authorId).isNone = true
    · rw [if_pos h1]
      exact hcons
    rw [if_neg h1]
    by_cases h2 : (findIdea db.ideas s.ideaId).isNone = true
    · rw [if_pos h2]
      exact hcons
    rw [if_neg h2]
    refine countersConsistent_addProposal db _ _ s.ideaId rfl rfl rfl rfl ?_ hfk hcons
    simp [ideaIdOfProposal, hsub]

/-- The transactional prototype-submit route preserves the counter invariant. -/
theorem submitPrototype_consistent (db : DB) (authorId proposalId : Nat)
    (title description imageUrl : String) (liveUrl : Option String)
    (hcons : countersConsistent db) :
    countersConsistent
      (submitPrototype db authorId proposalId title description imageUrl liveUrl).db := by
  unfold submitPrototype
  by_cases h0 : title = "" ∨ description = "" ∨ imageUrl = ""
  · rw [if_pos h0]
    exact hcons
  rw [if_neg h0]
  cases hp : findProposal db.proposals proposalId with
  | none => exact hcons
  | some p =>
    dsimp only
    by_cases hst : p.status ≠ ProposalStatus.ACCEPTED
    · rw [if_pos hst]
      exact hcons
    rw [if_neg hst]
    cases hsub : findSubIdea db.subIdeas p.subIdeaId with
    | none => exact hcons
    | some s =>
      dsimp only
      by_cases h1 : (findUser db.users authorId).isNone = true
      · rw [if_pos h1]
        exact hcons
      rw [if_neg h1]
      by_cases h2 : (findIdea db.ideas s.ideaId).isNone = true
      · rw [if_pos h2]
        exact hcons
      rw [if_neg h2]
      refine countersConsistent_addPrototype db _ _ s.ideaId rfl rfl rfl rfl ?_ hcons
      simp [ideaIdOfPrototype, ideaIdOfProposal, hp, hsub]

/-- The service-layer proposal delete preserves the counter invariant when no
Prototype still references the deleted Proposal. -/
theorem proposalServiceDeleteProposal_consistent (db : DB) (proposalId userId : Nat)
    (userRole : Role) (hnodup : (db.proposals.map Proposal.id).Nodup)
    (hnoproto : ∀ pr ∈ db.prototypes, ¬ pr.proposalId = proposalId)
    (hcons : countersConsistent db) :
    countersConsistent (proposalServiceDeleteProposal db proposalId userId userRole).db := by
  unfold proposalServiceDeleteProposal
  cases hp : findProposal db.proposals proposalId with
  | none => exact hcons
  | some p =>
    dsimp only
    by_cases hauth : p.authorId ≠ userId ∧ userRole ≠ Role.ADMIN
    · rw [if_pos hauth]
      exact hcons
    rw [if_neg hauth]
    cases hsub : findSubIdea db.subIdeas p.subIdeaId with
    | none => exact hcons
    | some s =>
      refine countersConsistent_removeProposal db _ proposalId p s.ideaId hp hnodup ?_
        hnoproto rfl rfl rfl rfl hcons
      simp [ideaIdOfProposal, hsub]

/-- The service-layer prototype delete preserves the counter invariant. -/
theorem prototypeServiceDeletePrototype_consistent (db : DB) (prototypeId userId : Nat)
    (userRole : Role) (hnodup : (db.prototypes.map Prototype.id).Nodup)
    (hcons : countersConsistent db) :
    countersConsistent
      (prototypeServiceDeletePrototype db prototypeId userId userRole).db := by
  unfold prototypeServiceDeletePrototype
  cases hp : findPrototype db.prototypes prototypeId with
  | none => exact hcons
  | some pr =>
    dsimp only
    by_cases hauth : pr.authorId ≠ userId ∧ userRole ≠ Role.ADMIN
    · rw [if_pos hauth]
      exact hcons
    rw [if_neg hauth]
    cases hch : (findProposal db.proposals pr.proposalId).bind
        (fun p => findSubIdea db.subIdeas p.subIdeaId) with
    | none => exact hcons
    | some s =>
      rw [Option.bind_eq_some] at hch
      obtain ⟨q, hq, hq2⟩ := hch
      refine countersConsistent_removePrototype db _ prototypeId pr s.ideaId hp hnodup ?_
        rfl rfl rfl rfl hcons
      simp [ideaIdOfPrototype, ideaIdOfProposal, hq, hq2]

/-- The cascade idea delete preserves the counter invariant. -/
theorem deleteIdea_consistent (db : DB) (actorId : Nat) (actorRole : Role) (ideaId : Nat)
    (hcons : countersConsistent db) :
    countersConsistent (deleteIdea db actorId actorRole ideaId).db := by
  unfold deleteIdea
  cases hi : findIdea db.ideas ideaId with
  | none => exact hcons
  | some idea =>
    exact countersConsistent_cascade db _ ideaId rfl rfl rfl rfl hcons

/-- C1 counterexample: the concrete database satisfies the counter invariant,
but the earlier plain-create revision of the proposal submit route creates a
Proposal (201) without incrementing `totalProposals`, breaking the invariant. -/
theorem c1_counterexample :
    countersConsistent exDB ∧
      (submitProposalPlain exDB 2 20 "t" "d" none).status = 201 ∧
      ¬ countersConsistent (submitProposalPlain exDB 2 20 "t" "d" none).db := by
  decide

/-- C1 amended: with unique primary keys and valid prototype foreign keys, the
counter invariant is preserved by the transactional proposal submit route, the
prototype submit route, the cascade idea delete, the service-layer proposal
delete (provided no Prototype still references the deleted Proposal — deleting
a proposal that has prototypes orphans them and breaks the prototype count),
and the service-layer prototype delete; the earlier plain-create revision of
the proposal submit route violates the invariant. -/
theorem c1_counter_invariant (db : DB)
    (a1 s1 : Nat) (t1 d1 : String) (pu : Option String)
    (a2 p2 : Nat) (t2 d2 img : String) (lu : Option String)
    (actorId : Nat) (actorRole : Role) (delIdeaId : Nat)
    (delPropId delPropUser : Nat) (delPropRole : Role)
    (delProtoId delProtoUser : Nat) (delProtoRole : Role)
    (hids : uniqueIds db) (hfk : prototypeFKsValid db)
    (hcons : countersConsistent db) :
    countersConsistent (submitProposal db a1 s1 t1 d1 pu).db ∧
      countersConsistent (submitPrototype db a2 p2 t2 d2 img lu).db ∧
      countersConsistent (deleteIdea db actorId actorRole delIdeaId).db ∧
      ((∀ pr ∈ db.prototypes, ¬ pr.proposalId = delPropId) →
        countersConsistent
          (proposalServiceDeleteProposal db delPropId delPropUser delPropRole).db) ∧
      countersConsistent
        (prototypeServiceDeletePrototype db delProtoId delProtoUser delProtoRole).db :=
  ⟨submitProposal_consistent db a1 s1 t1 d1 pu hfk hcons,
    submitPrototype_consistent db a2 p2 t2 d2 img lu hcons,
    deleteIdea_consistent db actorId actorRole delIdeaId hcons,
    fun hnp => proposalServiceDeleteProposal_consistent db delPropId delPropUser delPropRole
      hids.2.2.1 hnp hcons,
    prototypeServiceDeletePrototype_consistent db delProtoId delProtoUser delProtoRole
      hids.2.2.2 hcons⟩

/-- C1 witness: the amended invariant theorem applied to the concrete database
with a proposal submission under SubIdea 20, a prototype submission under
proposal 30, the cascade delete of idea 10, the service delete of proposal 31
(which has no prototypes) and the service delete of prototype 40. -/
theorem c1_witness :
    (uniqueIds exDB ∧ prototypeFKsValid exDB ∧ countersConsistent exDB) ∧
      (countersConsistent (submitProposal exDB 1 20 "t" "d" none).db ∧
        countersConsistent (submitPrototype exDB 1 30 "t" "d" "http://x" none).db ∧
        countersConsistent (deleteIdea exDB 1 Role.USER 10).db ∧
        ((∀ pr ∈ exDB.prototypes, ¬ pr.proposalId = 31) →
          countersConsistent (proposalServiceDeleteProposal exDB 31 2 Role.USER).db) ∧
        countersConsistent (prototypeServiceDeletePrototype exDB 40 2 Role.USER).db) :=
  ⟨⟨by decide, by decide, by decide⟩,
    c1_counter_invariant exDB 1 20 "t" "d" none 1 30 "t" "d" "http://x" none
      1 Role.USER 10 31 2 Role.USER 40 2 Role.USER
      (by decide) (by decide) (by decide)⟩

/-- Auxiliary: removing the rows matching `p` splits the length. -/
theorem length_filter_not_add {α : Type} (p : α → Bool) (l : List α) :
    (l.filter (fun x => !(p x))).length + l.countP p = l.length := by
  induction l with
  | nil => rfl
  | cons x xs ih =>
    rw [List.filter_cons, List.countP_cons]
    cases hx : p x <;> simp [hx] <;> omega

/-- C2 counterexample: user 1 holds 5 stars, earns 2 on creating an idea
(balance 7), but the cascade delete of that fresh idea deducts only 1 (balance
6), not the 2 that were credited — the deletion schedule does not mirror the
creation rewards. -/
theorem c2_counterexample :
    (findUser exDB.users 1).map User.stars = some 5 ∧
      (findUser (createIdea exDB 1 "tt" "dd" IdeaType.IDEATION).db.users 1).map
        User.stars = some 7 ∧
      (findUser (deleteIdea (createIdea exDB 1 "tt" "dd" IdeaType.IDEATION).db
          1 Role.USER 12).db.users 1).map User.stars = some 6 ∧
      ¬ ((6 : Int) = 5) := by
  decide

/-- C2 amended: deleting an existing Idea with N descendant SubIdeas, P
Proposals and R Prototypes answers 200 and removes exactly N+P+R+1 entity rows
(one per table, counted by the descendant-chain predicates), removes exactly
the Votes and Comments targeting a descendant (keeping all others), and
decrements each user's star balance by the fixed schedule 1 for the Idea (if
they authored it) plus 1, 2 and 3 per authored deleted SubIdea, Proposal and
Prototype — a schedule that does not equal the creation credits (Idea +2,
Proposal +2, SubIdea and Prototype 0), as the counterexample shows. -/
theorem c2_cascade_effects (db : DB) (actorId : Nat) (actorRole : Role) (ideaId : Nat)
    (idea : Idea) (hfound : findIdea db.ideas ideaId = some idea)
    (hnodup : (db.ideas.map Idea.id).Nodup) :
    (deleteIdea db actorId actorRole ideaId).status = 200 ∧
      (deleteIdea db actorId actorRole ideaId).db.ideas.length + 1 = db.ideas.length ∧
      (deleteIdea db actorId actorRole ideaId).db.subIdeas.length +
        db.subIdeas.countP (fun s => s.ideaId == ideaId) = db.subIdeas.length ∧
      (deleteIdea db actorId actorRole ideaId).db.proposals.length +
        db.proposals.countP (fun p => ideaIdOfProposal db.subIdeas p == some ideaId) =
        db.proposals.length ∧
      (deleteIdea db actorId actorRole ideaId).db.prototypes.length +
        db.prototypes.countP
          (fun pr => ideaIdOfPrototype db.proposals db.subIdeas pr == some ideaId) =
        db.prototypes.length ∧
      (∀ v ∈ (deleteIdea db actorId actorRole ideaId).db.votes,
        ¬ voteTargetsIdea db ideaId v = true) ∧
      (∀ v ∈ db.votes, ¬ voteTargetsIdea db ideaId v = true →
        v ∈ (deleteIdea db actorId actorRole ideaId).db.votes) ∧
      (∀ c ∈ (deleteIdea db actorId actorRole ideaId).db.comments,
        ¬ commentTargetsIdea db ideaId c = true) ∧
      (∀ c ∈ db.comments, ¬ commentTargetsIdea db ideaId c = true →
        c ∈ (deleteIdea db actorId actorRole ideaId).db.comments) ∧
      (∀ u ∈ db.users,
        { u with stars := u.stars -
            ((if idea.authorId == u.id then 1 else 0)
              + ((db.subIdeas.filter (fun s => s.ideaId == ideaId)).countP
                  (fun s => s.authorId == u.id) : Int)
              + 2 * ((db.proposals.filter
                  (fun p => ideaIdOfProposal db.subIdeas p == some ideaId)).countP
                  (fun p => p.authorId == u.id) : Int)
              + 3 * ((db.prototypes.filter (fun pr =>
                  ideaIdOfPrototype db.proposals db.subIdeas pr == some ideaId)).countP
                  (fun pr => pr.authorId == u.id) : Int)) } ∈
          (deleteIdea db actorId actorRole ideaId).db.users) := by
  have hone : db.ideas.countP (fun x => x.id == ideaId) = 1 := by
    have h := countP_found_unique Idea.id (fun _ => true) hfound hnodup
    simpa using h
  simp only [deleteIdea, hfound]
  refine ⟨trivial, ?_, ?_, ?_, ?_, ?_, ?_, ?_, ?_, ?_⟩
  · have h := length_filter_not_add (fun x => x.id == ideaId) db.ideas
    rw [hone] at h
    exact h
  · exact length_filter_not_add (fun s => s.ideaId == ideaId) db.subIdeas
  · exact length_filter_not_add
      (fun p => ideaIdOfProposal db.subIdeas p == some ideaId) db.proposals
  · exact length_filter_not_add
      (fun pr => ideaIdOfPrototype db.proposals db.subIdeas pr == some ideaId) db.prototypes
  · intro v hv
    have h := (List.mem_filter.mp hv).2
    simpa using h
  · intro v hv hnv
    exact List.mem_filter.mpr ⟨hv, by simpa using hnv⟩
  · intro c hc
    have h := (List.mem_filter.mp hc).2
    simpa using h
  · intro c hc hnc
    exact List.mem_filter.mpr ⟨hc, by simpa using hnc⟩
  · intro u hu
    exact List.mem_map_of_mem _ hu

/-- C2 witness: concrete run of the cascade accounting theorem on `exDB`,
deleting idea 10 (one SubIdea, two Proposals, one Prototype). -/
theorem c2_witness :
    (findIdea exDB.ideas 10 = some ⟨10, 1, IdeaType.IDEATION, IdeaStatus.OPEN, 2, 1⟩ ∧
        (exDB.ideas.map Idea.id).Nodup) ∧
      ((deleteIdea exDB 1 Role.USER 10).status = 200 ∧
        (deleteIdea exDB 1 Role.USER 10).db.ideas.length + 1 = exDB.ideas.length ∧
        (deleteIdea exDB 1 Role.USER 10).db.subIdeas.length +
          exDB.subIdeas.countP (fun s => s.ideaId == 10) = exDB.subIdeas.length ∧
        (deleteIdea exDB 1 Role.USER 10).db.proposals.length +
          exDB.proposals.countP (fun p => ideaIdOfProposal exDB.subIdeas p == some 10) =
          exDB.proposals.length ∧
        (deleteIdea exDB 1 Role.USER 10).db.prototypes.length +
          exDB.prototypes.countP
            (fun pr => ideaIdOfPrototype exDB.proposals exDB.subIdeas pr == some 10) =
          exDB.prototypes.length ∧
        (∀ v ∈ (deleteIdea exDB 1 Role.USER 10).db.votes,
          ¬ voteTargetsIdea exDB 10 v = true) ∧
        (∀ v ∈ exDB.votes, ¬ voteTargetsIdea exDB 10 v = true →
          v ∈ (deleteIdea exDB 1 Role.USER 10).db.votes) ∧
        (∀ c ∈ (deleteIdea exDB 1 Role.USER 10).db.comments,
          ¬ commentTargetsIdea exDB 10 c = true) ∧
        (∀ c ∈ exDB.comments, ¬ commentTargetsIdea exDB 10 c = true →
          c ∈ (deleteIdea exDB 1 Role.USER 10).db.comments) ∧
        (∀ u ∈ exDB.users,
          { u with stars := u.stars -
              ((if (1 : Nat) == u.id then 1 else 0)
                + ((exDB.subIdeas.filter (fun s => s.ideaId == 10)).countP
                    (fun s => s.authorId == u.id) : Int)
                + 2 * ((exDB.proposals.filter
                    (fun p => ideaIdOfProposal exDB.subIdeas p == some 10)).countP
                    (fun p => p.authorId == u.id) : Int)
                + 3 * ((exDB.prototypes.filter (fun pr =>
                    ideaIdOfPrototype exDB.proposals exDB.subIdeas pr == some 10)).countP
                    (fun pr => pr.authorId == u.id) : Int)) } ∈
            (deleteIdea exDB 1 Role.USER 10).db.users)) :=
  ⟨⟨by decide, by decide⟩,
    c2_cascade_effects exDB 1 Role.USER 10
      ⟨10, 1, IdeaType.IDEATION, IdeaStatus.OPEN, 2, 1⟩ (by decide) (by decide)⟩
